import Mathlib

/-!
noknok: forward-auth gate and login flow

A shallow embedding of the request handlers of `internal/server`
(`auth.go`, `login.go`, `identity.go`) together with the pieces of the Go
standard library and of the echo framework they call.

Conventions of the embedding:

* a Go `string` is a Lean `String`; the byte-level functions of the Go
  library (`strings.HasPrefix`, `strings.HasSuffix`, `strings.Contains`) are
  taken on the list of characters, which agrees with the byte-level result on
  valid UTF-8 text;
* a handler is a function from the server and the request to an `Outcome`:
  the response it wrote and the calls it made to its collaborators, in order;
* the collaborators whose code is outside `internal/server` (the session
  manager, the role resolver, the AT Protocol client) are fields of `Server`:
  each gives the result its call returns.
-/

set_option autoImplicit false

deriving instance DecidableEq for Except

namespace Noknok

/-! ## Go `strings` -/

namespace strings

/-- Go `strings.HasPrefix(s, pre)`. -/
def HasPrefix (s pre : String) : Bool := pre.data.isPrefixOf s.data

/-- Go `strings.HasSuffix(s, suf)`. -/
def HasSuffix (s suf : String) : Bool := suf.data.isSuffixOf s.data

/-- Search of `sub` at every position of a character list. -/
def containsChars (sub : List Char) : List Char → Bool
  | [] => sub.isPrefixOf []
  | c :: cs => sub.isPrefixOf (c :: cs) || containsChars sub cs

/-- Go `strings.Contains(s, sub)`. -/
def Contains (s sub : String) : Bool := containsChars sub.data s.data

/-- Go `unicode.IsSpace`: the code points with the White_Space property. -/
def isSpace (c : Char) : Bool :=
  let n := c.toNat
  n == 0x09 || n == 0x0A || n == 0x0B || n == 0x0C || n == 0x0D || n == 0x20 ||
  n == 0x85 || n == 0xA0 || n == 0x1680 || (0x2000 ≤ n && n ≤ 0x200A) ||
  n == 0x2028 || n == 0x2029 || n == 0x202F || n == 0x205F || n == 0x3000

/-- Go `strings.TrimSpace(s)`: leading and trailing white space removed. -/
def TrimSpace (s : String) : String :=
  ⟨((s.data.dropWhile isSpace).reverse.dropWhile isSpace).reverse⟩

end strings

/-! ## HTTP data: headers, cookies, request, response -/

/-- Go `http.Header`, as the list of its (key, value) entries in order. Keys
are compared as written: `Get` and `Set` canonicalise a key the same way, so
two spellings used by the handlers denote the same entry exactly when they are
the same string. -/
structure Header where
  entries : List (String × String)
  deriving DecidableEq, Repr

namespace Header

/-- The empty header map of a fresh response. -/
def empty : Header := ⟨[]⟩

/-- Go `Header.Get(key)`: the first value of the key, `""` when there is none. -/
def Get (h : Header) (key : String) : String :=
  match h.entries.lookup key with
  | some v => v
  | none => ""

/-- Go `Header.Set(key, value)`: the key's entries are replaced by one value. -/
def Set (h : Header) (key value : String) : Header :=
  ⟨h.entries.filter (fun p => p.1 != key) ++ [(key, value)]⟩

/-- Whether the header map has an entry for the key. -/
def Has (h : Header) (key : String) : Bool :=
  (h.entries.lookup key).isSome

end Header

/-- Go `http.Cookie`, the fields the session manager fills. -/
structure Cookie where
  Name : String
  Value : String
  Path : String
  Domain : String
  MaxAge : Int
  Secure : Bool
  HttpOnly : Bool
  deriving DecidableEq, Repr

/-- The request as the handlers read it: its headers, the cookies parsed from
its `Cookie` header as (name, value) in order, and its form fields. -/
structure Request where
  Header : Noknok.Header
  Cookies : List (String × String)
  Form : List (String × String)
  deriving DecidableEq, Repr

namespace Request

/-- Echo `c.Cookie(name)`: the value of the first cookie of that name;
`none` stands for `http.ErrNoCookie`. -/
def Cookie (r : Request) (name : String) : Option String :=
  r.Cookies.lookup name

/-- Echo `c.FormValue(name)`: the first value of the field, `""` when absent. -/
def FormValue (r : Request) (name : String) : String :=
  match r.Form.lookup name with
  | some v => v
  | none => ""

/-- The same request with every cookie of the given name taken out. -/
def withoutCookie (r : Request) (name : String) : Request :=
  { r with Cookies := r.Cookies.filter (fun p => p.1 != name) }

end Request

/-- What a handler wrote to the response: the status (0 while nothing is
written), the response headers, the cookies handed to `c.SetCookie`, and the
body. -/
structure Response where
  Status : Nat
  Header : Noknok.Header
  SetCookies : List Cookie
  Body : String
  deriving DecidableEq, Repr

namespace Response

/-- The response of a fresh echo context. -/
def fresh : Response := ⟨0, Header.empty, [], ""⟩

/-- Echo `c.NoContent(code)`. -/
def NoContent (w : Response) (code : Nat) : Response :=
  { w with Status := code }

/-- Echo `c.Redirect(code, url)`: a code outside 300..308 is refused with
`ErrInvalidRedirectCode` and nothing is written. -/
def Redirect (w : Response) (code : Nat) (url : String) : Response :=
  if code < 300 ∨ code > 308 then w
  else { w with Header := w.Header.Set "Location" url, Status := code }

/-- Echo `c.HTML(code, html)`. -/
def HTML (w : Response) (code : Nat) (html : String) : Response :=
  { w with Header := w.Header.Set "Content-Type" "text/html; charset=UTF-8",
           Status := code, Body := html }

/-- Echo `c.SetCookie(cookie)`. -/
def SetCookie (w : Response) (cookie : Cookie) : Response :=
  { w with SetCookies := w.SetCookies ++ [cookie] }

end Response

/-! ## The server and its collaborators -/

/-- The session record of `internal/session`, with the fields the handlers
read. -/
structure Session where
  ID : Int
  Token : String
  GroupID : String
  DID : String
  Handle : String
  deriving DecidableEq, Repr

/-- The configuration fields of `config.Config` the handlers read. -/
structure Config where
  PublicURL : String
  OwnerDID : String
  CookieDomain : String
  deriving DecidableEq, Repr

/-- The server: its configuration and, for each collaborator call of the
handlers, the result that call returns (`Except.error` is a Go non-nil
`err`). `CookieName` is the constant `session.CookieName()`. `SwitchTo` and
`DestroyOne` take the group id first; the cookie `DestroyOne` returns may be
`nil` (`none`). `ClearCookie` is the cookie `s.sess.ClearCookie()` builds. -/
structure Server where
  cfg : Config
  CookieName : String
  Validate : String → Except String Session
  GetUserServiceRole : String → String → Except String String
  Authenticate : String → String → Except String (String × String)
  Create : String → String → Except String Cookie
  SwitchTo : String → Int → Except String Cookie
  DestroyOne : String → Int → Bool → Except String (Option Cookie)
  Destroy : String → Except String Unit
  ClearCookie : Cookie

/-- A call made by a handler to one of its collaborators. -/
inductive Call where
  | Validate (token : String)
  | GetUserServiceRole (did host : String)
  | Authenticate (handle password : String)
  | Create (did handle : String)
  | SwitchTo (groupID : String) (targetID : Int)
  | DestroyOne (groupID : String) (targetID : Int) (wasActive : Bool)
  | Destroy (token : String)
  deriving DecidableEq, Repr

/-- What a handler did: the response it wrote and its collaborator calls in
order. -/
structure Outcome where
  resp : Response
  calls : List Call
  deriving DecidableEq, Repr

/-! ## Go `strconv` -/

namespace strconv

/-- The number a string of decimal digits denotes. -/
def digitsValue (ds : List Char) : Nat :=
  ds.foldl (fun n c => n * 10 + (c.toNat - 48)) 0

/-- Go `strconv.ParseInt(s, 10, 64)`: an optional sign and then one or more
decimal digits, within the range of `int64`; `Except.error` is a non-nil
`err` (`ErrSyntax` or `ErrRange`). -/
def ParseInt (s : String) : Except String Int :=
  match s.data with
  | [] => .error "invalid syntax"
  | c :: cs =>
    let neg := c == '-'
    let digits := if c == '+' || c == '-' then cs else c :: cs
    if digits.isEmpty || !digits.all (fun d => 48 ≤ d.toNat && d.toNat ≤ 57) then
      .error "invalid syntax"
    else
      let un := digitsValue digits
      if !neg && un ≥ 2 ^ 63 then .error "value out of range"
      else if neg && un > 2 ^ 63 then .error "value out of range"
      else .ok (if neg then -(un : Int) else (un : Int))

end strconv

/-! ## Go `net/url`

`url.QueryEscape` and `url.Parse`, following the source of the Go standard
library (`net/url/url.go`, as of Go 1.22) function by function. -/

namespace url

/-- The escaping modes of `net/url` (`encodePath` ... `encodeFragment`). -/
inductive Encoding where
  | encodePath
  | encodePathSegment
  | encodeHost
  | encodeZone
  | encodeUserPassword
  | encodeQueryComponent
  | encodeFragment
  deriving DecidableEq, Repr

open Encoding

/-- The byte is an ASCII letter or digit. -/
def isAlnumByte (c : Nat) : Bool :=
  (97 ≤ c && c ≤ 122) || (65 ≤ c && c ≤ 90) || (48 ≤ c && c ≤ 57)

/-- Go `shouldEscape(c, mode)` of `net/url`, on the byte value `c`. -/
def shouldEscape (c : Nat) (mode : Encoding) : Bool :=
  if isAlnumByte c then false
  else if (mode == encodeHost || mode == encodeZone) &&
      "!$&\x27()*+,;=:[]<>\"".data.any (fun d => d.toNat == c) then false
  else if "-_.~".data.any (fun d => d.toNat == c) then false
  else if "$&+,/:;=?@".data.any (fun d => d.toNat == c) then
    match mode with
    | encodePath => c == 59 || c == 44 || c == 63
    | encodePathSegment => c == 47 || c == 59 || c == 44 || c == 63
    | encodeUserPassword => c == 64 || c == 47 || c == 63 || c == 58
    | encodeQueryComponent => true
    | encodeFragment => false
    | _ => true
  else if mode == encodeFragment && "!()*".data.any (fun d => d.toNat == c) then false
  else true

/-- The UTF-8 bytes of a character, as Go sees it in a string. -/
def utf8Bytes (c : Char) : List Nat :=
  let n := c.toNat
  if n < 0x80 then [n]
  else if n < 0x800 then [0xC0 + n / 64, 0x80 + n % 64]
  else if n < 0x10000 then [0xE0 + n / 4096, 0x80 + (n / 64) % 64, 0x80 + n % 64]
  else [0xF0 + n / 262144, 0x80 + (n / 4096) % 64, 0x80 + (n / 64) % 64, 0x80 + n % 64]

/-- The digit of `upperhex` at index `n`. -/
def upperhex (n : Nat) : Char := "0123456789ABCDEF".data.getD n '0'

/-- One byte of Go `escape(s, mode)`: kept, turned into `+`, or into `%XX`. -/
def escapeByte (mode : Encoding) (c : Nat) : List Char :=
  if shouldEscape c mode then
    if c == 32 && mode == encodeQueryComponent then ['+']
    else ['%', upperhex (c / 16), upperhex (c % 16)]
  else [Char.ofNat c]

/-- Go `url.QueryEscape(s)`, that is `escape(s, encodeQueryComponent)`. -/
def QueryEscape (s : String) : String :=
  ⟨(s.data.flatMap utf8Bytes).flatMap (escapeByte encodeQueryComponent)⟩

/-- The URL record of `net/url`. `User`, `RawPath`, `RawFragment` and
`OmitHost` are left out: no handler reads them and they decide no error. -/
structure URL where
  Scheme : String
  Opaque : String
  Host : String
  Path : String
  ForceQuery : Bool
  RawQuery : String
  Fragment : String
  deriving DecidableEq, Repr

/-- Go `ishex`. -/
def ishex (c : Char) : Bool :=
  let n := c.toNat
  (48 ≤ n && n ≤ 57) || (97 ≤ n && n ≤ 102) || (65 ≤ n && n ≤ 70)

/-- Go `unhex`. -/
def unhex (c : Char) : Nat :=
  let n := c.toNat
  if 48 ≤ n && n ≤ 57 then n - 48
  else if 97 ≤ n && n ≤ 102 then n - 97 + 10
  else if 65 ≤ n && n ≤ 70 then n - 65 + 10
  else 0

/-- Go `unescape(s, mode)` on the characters of `s`. A character above
U+007F stands for its UTF-8 bytes, none of which is `%`, `+` or below 0x80,
and is kept. A decoded `%XX` is the character of code `XX` (for `XX` above
7F that is the decoded byte, not a character of the text). -/
def unescape (mode : Encoding) : List Char → Except String (List Char)
  | [] => .ok []
  | '%' :: h1 :: h2 :: rest =>
    if !ishex h1 || !ishex h2 then .error "invalid URL escape"
    else if mode == encodeHost && unhex h1 < 8 && [h1, h2] != ['2', '5'] then
      .error "invalid URL escape"
    else if mode == encodeZone && [h1, h2] != ['2', '5'] &&
        unhex h1 * 16 + unhex h2 != 32 &&
        shouldEscape (unhex h1 * 16 + unhex h2) encodeHost then
      .error "invalid URL escape"
    else
      match unescape mode rest with
      | .ok out => .ok (Char.ofNat (unhex h1 * 16 + unhex h2) :: out)
      | .error e => .error e
  | '%' :: _ => .error "invalid URL escape"
  | c :: rest =>
    if (mode == encodeHost || mode == encodeZone) && c.toNat < 0x80 && c != '+' &&
        shouldEscape c.toNat encodeHost then
      .error "invalid character in host name"
    else
      match unescape mode rest with
      | .ok out => .ok ((if c == '+' && mode == encodeQueryComponent then ' ' else c) :: out)
      | .error e => .error e

/-- Go `getScheme`: `acc` is the part of `rawURL` already read, so `i == 0`
in the source is `acc` being empty. The result is (scheme, rest). -/
def getSchemeLoop (rawURL acc : List Char) : List Char → Except String (List Char × List Char)
  | [] => .ok ([], rawURL)
  | c :: cs =>
    let n := c.toNat
    if (97 ≤ n && n ≤ 122) || (65 ≤ n && n ≤ 90) then getSchemeLoop rawURL (acc ++ [c]) cs
    else if (48 ≤ n && n ≤ 57) || c == '+' || c == '-' || c == '.' then
      if acc.isEmpty then .ok ([], rawURL) else getSchemeLoop rawURL (acc ++ [c]) cs
    else if c == ':' then
      if acc.isEmpty then .error "missing protocol scheme" else .ok (acc, cs)
    else .ok ([], rawURL)

/-- Go `getScheme(rawURL)`. -/
def getScheme (rawURL : List Char) : Except String (List Char × List Char) :=
  getSchemeLoop rawURL [] rawURL

/-- Go `strings.Cut(s, sep)` for a one-character separator: the text before
and after its first occurrence, or the whole text and nothing. -/
def cut (sep : Char) : List Char → List Char × List Char
  | [] => ([], [])
  | c :: cs => if c == sep then ([], cs) else ((cut sep cs).1.cons c, (cut sep cs).2)

/-- The text before the last occurrence of `sep` and the text from it on
(`s[:i]`, `s[i:]` for `i = strings.LastIndex(s, sep)`), `none` when `i < 0`. -/
def splitAtLast (sep : Char) : List Char → Option (List Char × List Char)
  | [] => none
  | c :: cs =>
    match splitAtLast sep cs with
    | some (a, b) => some (c :: a, b)
    | none => if c == sep then some ([], c :: cs) else none

/-- The text before the first occurrence of `sub` and the text from it on
(`s[:i]`, `s[i:]` for `i = strings.Index(s, sub)`), `none` when `i < 0`. -/
def splitAtFirst (sub : List Char) : List Char → Option (List Char × List Char)
  | [] => if sub.isEmpty then some ([], []) else none
  | c :: cs =>
    if sub.isPrefixOf (c :: cs) then some ([], c :: cs)
    else match splitAtFirst sub cs with
      | some (a, b) => some (c :: a, b)
      | none => none

/-- Go `validOptionalPort(port)`. -/
def validOptionalPort : List Char → Bool
  | [] => true
  | c :: ds => c == ':' && ds.all (fun b => 48 ≤ b.toNat && b.toNat ≤ 57)

/-- Go `parseHost(host)`. -/
def parseHost (host : List Char) : Except String (List Char) :=
  if ['['].isPrefixOf host then
    match splitAtLast ']' host with
    | none => .error "missing ']' in host"
    | some (upTo, fromBracket) =>
      if !validOptionalPort (fromBracket.drop 1) then .error "invalid port after host"
      else
        match splitAtFirst ['%', '2', '5'] upTo with
        | some (host1, zone) =>
          match unescape encodeHost host1, unescape encodeZone zone,
              unescape encodeHost fromBracket with
          | .ok h1, .ok h2, .ok h3 => .ok (h1 ++ h2 ++ h3)
          | .error e, _, _ => .error e
          | _, .error e, _ => .error e
          | _, _, .error e => .error e
        | none => unescape encodeHost host
  else
    match splitAtLast ':' host with
    | some (_, colonPort) =>
      if !validOptionalPort colonPort then .error "invalid port after host"
      else unescape encodeHost host
    | none => unescape encodeHost host

/-- Go `validUserinfo(s)`. -/
def validUserinfo (s : List Char) : Bool :=
  s.all (fun r => isAlnumByte r.toNat || "-._:~!$&\x27()*+,;=%@".data.contains r)

/-- Go `parseAuthority(authority)`, returning the host; the user information
is validated and decoded as in the source, and then dropped. -/
def parseAuthority (authority : List Char) : Except String (List Char) :=
  match splitAtLast '@' authority with
  | none => parseHost authority
  | some (userinfo, fromAt) =>
    match parseHost (fromAt.drop 1) with
    | .error e => .error e
    | .ok host =>
      if !validUserinfo userinfo then .error "net/url: invalid userinfo"
      else if !userinfo.contains ':' then
        match unescape encodeUserPassword userinfo with
        | .error e => .error e
        | .ok _ => .ok host
      else
        match unescape encodeUserPassword (cut ':' userinfo).1,
            unescape encodeUserPassword (cut ':' userinfo).2 with
        | .ok _, .ok _ => .ok host
        | .error e, _ => .error e
        | _, .error e => .error e

/-- Go `strings.ToLower` on a scheme: `getScheme` leaves only ASCII letters,
digits, `+`, `-` and `.` in it, so the ASCII mapping is the whole of it. -/
def toLower (s : List Char) : List Char :=
  s.map (fun c => if 65 ≤ c.toNat && c.toNat ≤ 90 then Char.ofNat (c.toNat + 32) else c)

/-- Go `parse(rawURL, false)` of `net/url`: the text has no fragment. -/
def parse (rawURL : List Char) : Except String URL :=
  if rawURL.any (fun c => c.toNat < 0x20 || c.toNat == 0x7f) then
    .error "net/url: invalid control character in URL"
  else if rawURL == ['*'] then .ok ⟨"", "", "", "*", false, "", ""⟩
  else
    match getScheme rawURL with
    | .error e => .error e
    | .ok (scheme0, rest0) =>
      let scheme := toLower scheme0
      let forceQuery := ['?'].isSuffixOf rest0 && rest0.count '?' == 1
      let rest := if forceQuery then rest0.dropLast else (cut '?' rest0).1
      let rawQuery := if forceQuery then [] else (cut '?' rest0).2
      if !(['/'].isPrefixOf rest) && !scheme.isEmpty then
        .ok ⟨⟨scheme⟩, ⟨rest⟩, "", "", forceQuery, ⟨rawQuery⟩, ""⟩
      else if !(['/'].isPrefixOf rest) && (cut '/' rest).1.contains ':' then
        .error "first path segment in URL cannot contain colon"
      else if (!scheme.isEmpty || !(['/', '/', '/'].isPrefixOf rest)) &&
          ['/', '/'].isPrefixOf rest then
        let afterSlashes := rest.drop 2
        let authority := (cut '/' afterSlashes).1
        let path := afterSlashes.drop authority.length
        match parseAuthority authority with
        | .error e => .error e
        | .ok host =>
          match unescape encodePath path with
          | .error e => .error e
          | .ok p => .ok ⟨⟨scheme⟩, "", ⟨host⟩, ⟨p⟩, forceQuery, ⟨rawQuery⟩, ""⟩
      else
        match unescape encodePath rest with
        | .error e => .error e
        | .ok p => .ok ⟨⟨scheme⟩, "", "", ⟨p⟩, forceQuery, ⟨rawQuery⟩, ""⟩

/-- Go `url.Parse(rawURL)`: the fragment is cut off at the first `#`, the rest
is parsed, and a non-empty fragment is decoded into the result. -/
def Parse (rawURL : String) : Except String URL :=
  match parse (cut '#' rawURL.data).1 with
  | .error e => .error e
  | .ok u =>
    if (cut '#' rawURL.data).2.isEmpty then .ok u
    else
      match unescape encodeFragment (cut '#' rawURL.data).2 with
      | .error e => .error e
      | .ok f => .ok { u with Fragment := ⟨f⟩ }

end url

/-! ## `login.go`: the login page -/

/-- The page of `loginHTML` up to the place of the error block. -/
def loginHTMLHead : String :=
  String.join [
    "<!DOCTYPE html>\n",
    "<html lang=\"en\">\n",
    "<head>\n",
    "<meta charset=\"utf-8\">\n",
    "<meta name=\"viewport\" content=\"width=device-width, initial-scale=1\">\n",
    "<title>noknok — Sign In</title>\n",
    "<style>\n",
    "  *, *::before, *::after \x7b box-sizing: border-box; margin: 0; padding: 0; \x7d\n",
    "  body \x7b\n",
    "    font-family: -apple-system, BlinkMacSystemFont, \"Segoe UI\", Roboto, sans-serif;\n",
    "    background: #0f172a;\n",
    "    color: #e2e8f0;\n",
    "    min-height: 100vh;\n",
    "    display: flex;\n",
    "    align-items: center;\n",
    "    justify-content: center;\n",
    "  \x7d\n",
    "  .card \x7b\n",
    "    background: #1e293b;\n",
    "    border-radius: 12px;\n",
    "    padding: 2.5rem;\n",
    "    width: 100%;\n",
    "    max-width: 400px;\n",
    "    box-shadow: 0 4px 24px rgba(0,0,0,0.3);\n",
    "  \x7d\n",
    "  h1 \x7b\n",
    "    font-size: 1.5rem;\n",
    "    font-weight: 600;\n",
    "    margin-bottom: 0.25rem;\n",
    "    color: #f8fafc;\n",
    "  \x7d\n",
    "  .subtitle \x7b\n",
    "    color: #94a3b8;\n",
    "    font-size: 0.875rem;\n",
    "    margin-bottom: 1.5rem;\n",
    "  \x7d\n",
    "  .error \x7b\n",
    "    background: #7f1d1d;\n",
    "    color: #fca5a5;\n",
    "    padding: 0.75rem 1rem;\n",
    "    border-radius: 8px;\n",
    "    font-size: 0.875rem;\n",
    "    margin-bottom: 1rem;\n",
    "  \x7d\n",
    "  label \x7b\n",
    "    display: block;\n",
    "    font-size: 0.875rem;\n",
    "    font-weight: 500;\n",
    "    color: #cbd5e1;\n",
    "    margin-bottom: 0.375rem;\n",
    "  \x7d\n",
    "  input[type=\"text\"], input[type=\"password\"] \x7b\n",
    "    width: 100%;\n",
    "    padding: 0.625rem 0.75rem;\n",
    "    background: #0f172a;\n",
    "    border: 1px solid #334155;\n",
    "    border-radius: 8px;\n",
    "    color: #f8fafc;\n",
    "    font-size: 0.9375rem;\n",
    "    margin-bottom: 1rem;\n",
    "    outline: none;\n",
    "    transition: border-color 0.15s;\n",
    "  \x7d\n",
    "  input[type=\"text\"]:focus, input[type=\"password\"]:focus \x7b\n",
    "    border-color: #3b82f6;\n",
    "  \x7d\n",
    "  input[type=\"text\"]::placeholder, input[type=\"password\"]::placeholder \x7b\n",
    "    color: #475569;\n",
    "  \x7d\n",
    "  button \x7b\n",
    "    width: 100%;\n",
    "    padding: 0.625rem;\n",
    "    background: #3b82f6;\n",
    "    color: #fff;\n",
    "    border: none;\n",
    "    border-radius: 8px;\n",
    "    font-size: 0.9375rem;\n",
    "    font-weight: 500;\n",
    "    cursor: pointer;\n",
    "    transition: background 0.15s;\n",
    "  \x7d\n",
    "  button:hover \x7b background: #2563eb; \x7d\n",
    "  .footer \x7b\n",
    "    text-align: center;\n",
    "    margin-top: 1.5rem;\n",
    "    font-size: 0.75rem;\n",
    "    color: #475569;\n",
    "  \x7d\n",
    "</style>\n",
    "</head>\n",
    "<body>\n",
    "<div class=\"card\">\n",
    "  <h1>noknok</h1>\n",
    "  <p class=\"subtitle\">Sign in with your AT Protocol identity</p>\n",
    "  "]

/-- The page of `loginHTML` between the error block and the hidden redirect
input. -/
def loginHTMLForm : String :=
  String.join [
    "\n",
    "  <form method=\"POST\" action=\"/login\">\n",
    "    "]

/-- The page of `loginHTML` after the hidden redirect input. -/
def loginHTMLTail : String :=
  String.join [
    "\n",
    "    <label for=\"handle\">Handle</label>\n",
    "    <input type=\"text\" id=\"handle\" name=\"handle\" placeholder=\"you.bsky.social\" autocomplete=\"username\" autofocus required>\n",
    "    <label for=\"password\">App Password</label>\n",
    "    <input type=\"password\" id=\"password\" name=\"password\" placeholder=\"xxxx-xxxx-xxxx-xxxx\" autocomplete=\"current-password\" required>\n",
    "    <button type=\"submit\">Sign In</button>\n",
    "  </form>\n",
    "  <p class=\"footer\">Authentication via AT Protocol (Bluesky)</p>\n",
    "</div>\n",
    "</body>\n",
    "</html>"]

/-- Go `loginHTML(redirect, errMsg)` of `login.go`. -/
def loginHTML (redirect errMsg : String) : String :=
  let errorBlock :=
    if errMsg ≠ "" then "<div class=\"error\">" ++ errMsg ++ "</div>" else ""
  let redirectInput :=
    if redirect ≠ "" then
      "<input type=\"hidden\" name=\"redirect\" value=\"" ++ redirect ++ "\">"
    else ""
  loginHTMLHead ++ errorBlock ++ loginHTMLForm ++ redirectInput ++ loginHTMLTail

/-! ## `auth.go`: the forward-auth gate -/

/-- The part of `handleAuth` after the session block (`auth.go` lines 42-78),
reached when there is no cookie, the cookie is empty or `Validate` failed:
the Authorization pass-through, the 401 for clients that do not accept HTML,
and the redirect to the login page. `calls` are the calls made so far. -/
def handleAuthNoSession (s : Server) (r : Request) (calls : List Call) : Outcome :=
  if r.Header.Get "X-Forwarded-Authorization" ≠ "" ∨ r.Header.Get "Authorization" ≠ "" then
    ⟨Response.fresh.NoContent 200, calls⟩
  else
    let accept := r.Header.Get "X-Forwarded-Accept"
    let accept := if accept = "" then r.Header.Get "Accept" else accept
    if !strings.Contains accept "text/html" then
      ⟨Response.fresh.NoContent 401, calls⟩
    else
      let scheme := r.Header.Get "X-Forwarded-Proto"
      let scheme := if scheme = "" then "https" else scheme
      let host := r.Header.Get "X-Forwarded-Host"
      let uri := r.Header.Get "X-Forwarded-Uri"
      let redirectTarget := if host ≠ "" then scheme ++ "://" ++ host ++ uri else ""
      let loginURL := s.cfg.PublicURL ++ "/login"
      let loginURL :=
        if redirectTarget ≠ "" then loginURL ++ ("?redirect=" ++ url.QueryEscape redirectTarget)
        else loginURL
      ⟨Response.fresh.Redirect 302 loginURL, calls⟩

/-- Go `handleAuth` of `auth.go`, the forward-auth endpoint. -/
def handleAuth (s : Server) (r : Request) : Outcome :=
  match r.Cookie s.CookieName with
  | some value =>
    if value ≠ "" then
      match s.Validate value with
      | .ok sess =>
        let w := Response.fresh
        let w := { w with Header := w.Header.Set "X-User-DID" sess.DID }
        let w := { w with Header := w.Header.Set "X-User-Handle" sess.Handle }
        let host := r.Header.Get "X-Forwarded-Host"
        if host ≠ "" then
          match s.GetUserServiceRole sess.DID host with
          | .ok role =>
            if role ≠ "" then
              ⟨Response.NoContent { w with Header := w.Header.Set "X-User-Role" role } 200,
                [.Validate value, .GetUserServiceRole sess.DID host]⟩
            else
              ⟨w.NoContent 200, [.Validate value, .GetUserServiceRole sess.DID host]⟩
          | .error _ =>
            ⟨w.NoContent 200, [.Validate value, .GetUserServiceRole sess.DID host]⟩
        else
          ⟨w.NoContent 200, [.Validate value]⟩
      | .error _ => handleAuthNoSession s r [.Validate value]
    else handleAuthNoSession s r []
  | none => handleAuthNoSession s r []

/-! ## `login.go`: the login submission -/

/-- Go `isAllowedRedirect(rawURL, cfg)` of `login.go`; `domain[1:]` drops
the leading dot. -/
def isAllowedRedirect (rawURL : String) (cfg : Config) : Bool :=
  match url.Parse rawURL with
  | .error _ => false
  | .ok u =>
    if u.Scheme ≠ "http" ∧ u.Scheme ≠ "https" then false
    else
      let domain := cfg.CookieDomain
      if strings.HasPrefix domain "." then
        let base : String := ⟨domain.data.drop 1⟩
        u.Host == base || strings.HasSuffix u.Host domain
      else u.Host == domain

/-- Go `handleLogin` of `login.go`; the `slog` lines write to the log only. -/
def handleLogin (s : Server) (r : Request) : Outcome :=
  let handle := strings.TrimSpace (r.FormValue "handle")
  let password := r.FormValue "password"
  let redirect := r.FormValue "redirect"
  if handle = "" ∨ password = "" then
    ⟨Response.fresh.HTML 200 (loginHTML redirect "Handle and app password are required."), []⟩
  else
    match s.Authenticate handle password with
    | .error _ =>
      ⟨Response.fresh.HTML 200
          (loginHTML redirect "Authentication failed. Check your handle and app password."),
        [.Authenticate handle password]⟩
    | .ok (did, resolvedHandle) =>
      if did ≠ s.cfg.OwnerDID then
        ⟨Response.fresh.HTML 200 (loginHTML redirect "Access denied. You are not authorized."),
          [.Authenticate handle password]⟩
      else
        match s.Create did resolvedHandle with
        | .error _ =>
          ⟨Response.fresh.HTML 200 (loginHTML redirect "Internal error. Please try again."),
            [.Authenticate handle password, .Create did resolvedHandle]⟩
        | .ok cookie =>
          let w := Response.fresh.SetCookie cookie
          let dest := s.cfg.PublicURL ++ "/"
          let dest := if redirect ≠ "" ∧ isAllowedRedirect redirect s.cfg then redirect else dest
          ⟨w.Redirect 302 dest, [.Authenticate handle password, .Create did resolvedHandle]⟩

/-- Go `handleLogout` of `auth.go`: the result of `Destroy` is dropped. -/
def handleLogout (s : Server) (r : Request) : Outcome :=
  let w := Response.fresh.SetCookie s.ClearCookie
  match r.Cookie s.CookieName with
  | some value =>
    if value ≠ "" then ⟨w.Redirect 302 (s.cfg.PublicURL ++ "/login"), [.Destroy value]⟩
    else ⟨w.Redirect 302 (s.cfg.PublicURL ++ "/login"), []⟩
  | none => ⟨w.Redirect 302 (s.cfg.PublicURL ++ "/login"), []⟩

/-! ## `identity.go`: switching and logging out one identity -/

/-- Go `handleSwitchIdentity` of `identity.go`. -/
def handleSwitchIdentity (s : Server) (r : Request) : Outcome :=
  match r.Cookie s.CookieName with
  | none => ⟨Response.fresh.Redirect 302 (s.cfg.PublicURL ++ "/login"), []⟩
  | some value =>
    if value = "" then ⟨Response.fresh.Redirect 302 (s.cfg.PublicURL ++ "/login"), []⟩
    else
      match s.Validate value with
      | .error _ =>
        ⟨Response.fresh.Redirect 302 (s.cfg.PublicURL ++ "/login"), [.Validate value]⟩
      | .ok sess =>
        match strconv.ParseInt (r.FormValue "id") with
        | .error _ =>
          ⟨Response.fresh.Redirect 302 (s.cfg.PublicURL ++ "/"), [.Validate value]⟩
        | .ok targetID =>
          match s.SwitchTo sess.GroupID targetID with
          | .error _ =>
            ⟨Response.fresh.Redirect 302 (s.cfg.PublicURL ++ "/"),
              [.Validate value, .SwitchTo sess.GroupID targetID]⟩
          | .ok newCookie =>
            ⟨(Response.fresh.SetCookie newCookie).Redirect 302 (s.cfg.PublicURL ++ "/"),
              [.Validate value, .SwitchTo sess.GroupID targetID]⟩

/-- Go `handleLogoutOne` of `identity.go`. -/
def handleLogoutOne (s : Server) (r : Request) : Outcome :=
  match r.Cookie s.CookieName with
  | none => ⟨Response.fresh.Redirect 302 (s.cfg.PublicURL ++ "/login"), []⟩
  | some value =>
    if value = "" then ⟨Response.fresh.Redirect 302 (s.cfg.PublicURL ++ "/login"), []⟩
    else
      match s.Validate value with
      | .error _ =>
        ⟨Response.fresh.Redirect 302 (s.cfg.PublicURL ++ "/login"), [.Validate value]⟩
      | .ok sess =>
        match strconv.ParseInt (r.FormValue "id") with
        | .error _ =>
          ⟨Response.fresh.Redirect 302 (s.cfg.PublicURL ++ "/"), [.Validate value]⟩
        | .ok targetID =>
          let wasActive := targetID == sess.ID
          match s.DestroyOne sess.GroupID targetID wasActive with
          | .error _ =>
            ⟨Response.fresh.Redirect 302 (s.cfg.PublicURL ++ "/"),
              [.Validate value, .DestroyOne sess.GroupID targetID wasActive]⟩
          | .ok newCookie =>
            let w :=
              match newCookie with
              | some cookie => Response.fresh.SetCookie cookie
              | none => Response.fresh
            let fullyLoggedOut :=
              match newCookie with
              | some cookie => wasActive && cookie.MaxAge == -1
              | none => false
            if fullyLoggedOut then
              ⟨w.Redirect 302 (s.cfg.PublicURL ++ "/login"),
                [.Validate value, .DestroyOne sess.GroupID targetID wasActive]⟩
            else
              ⟨w.Redirect 302 (s.cfg.PublicURL ++ "/"),
                [.Validate value, .DestroyOne sess.GroupID targetID wasActive]⟩

/-! ## Sample data -/

/-- A session of the owner. -/
def sampleSession : Session := ⟨7, "tok-1", "grp-1", "did:plc:owner", "owner.example.com"⟩

/-- A session cookie for `sampleSession`. -/
def sampleCookie : Cookie := ⟨"noknok_session", "tok-1", "/", ".example.com", 86400, true, true⟩

/-- A session cookie for the second identity of the group `grp-1`, the session
of id 9. -/
def secondCookie : Cookie := ⟨"noknok_session", "tok-2", "/", ".example.com", 86400, true, true⟩

/-- The cookie that clears the session cookie. -/
def clearingCookie : Cookie := ⟨"noknok_session", "", "/", ".example.com", -1, true, true⟩

/-- A server whose session store holds `sampleSession` under the token
`tok-1` and a second session, of id 9, in the same group `grp-1`, whose role
resolver knows one host, and whose owner is `did:plc:owner`. -/
def sampleServer : Server where
  cfg := ⟨"https://portal.example.com", "did:plc:owner", ".example.com"⟩
  CookieName := "noknok_session"
  Validate := fun token =>
    if token = "tok-1" then .ok sampleSession
    else if token = "tok-old" then .error "session expired"
    else .error "session not found"
  GetUserServiceRole := fun did host =>
    if host = "db.example.com" then .error "store error"
    else if did = "did:plc:owner" ∧ host = "git.example.com" then .ok "admin"
    else .ok ""
  Authenticate := fun handle password =>
    if handle = "owner.example.com" ∧ password = "pw" then
      .ok ("did:plc:owner", "owner.example.com")
    else if handle = "guest.example.com" ∧ password = "pw" then
      .ok ("did:plc:guest", "guest.example.com")
    else .error "authenticate: createSession returned status 401"
  Create := fun _ _ => .ok sampleCookie
  SwitchTo := fun groupID targetID =>
    if groupID = "grp-1" ∧ targetID = 7 then .ok sampleCookie
    else if groupID = "grp-1" ∧ targetID = 9 then .ok secondCookie
    else .error "session not found in group"
  DestroyOne := fun groupID targetID wasActive =>
    if groupID = "grp-1" ∧ targetID = 7 then
      .ok (if wasActive then some secondCookie else none)
    else if groupID = "grp-1" ∧ targetID = 9 then
      .ok (if wasActive then some sampleCookie else none)
    else .error "session not found in group"
  Destroy := fun _ => .ok ()
  ClearCookie := clearingCookie

/-- A request with the given headers, cookies and form fields. -/
def sampleRequest (headers cookies form : List (String × String)) : Request :=
  ⟨⟨headers⟩, cookies, form⟩

/-! ## Specification-side notions -/

/-- The request carries no valid session: no session cookie, a session cookie
with an empty value, or a session cookie on which `Validate` fails. -/
def noValidSession (s : Server) (r : Request) : Prop :=
  r.Cookie s.CookieName = none ∨ r.Cookie s.CookieName = some "" ∨
    ∃ value e, r.Cookie s.CookieName = some value ∧ s.Validate value = .error e

/-- The effective Accept value: `X-Forwarded-Accept` when that header is
non-empty, the direct `Accept` header otherwise. -/
def effectiveAccept (r : Request) : String :=
  if r.Header.Get "X-Forwarded-Accept" ≠ "" then r.Header.Get "X-Forwarded-Accept"
  else r.Header.Get "Accept"

/-! ## Lemmas on strings -/

theorem str_append_left_cancel {a b c : String} (h : a ++ b = a ++ c) : b = c := by
  have hd := congrArg String.data h
  simp only [String.data_append] at hd
  exact String.ext (List.append_cancel_left hd)

theorem str_append_right_cancel {a b c : String} (h : a ++ c = b ++ c) : a = b := by
  have hd := congrArg String.data h
  simp only [String.data_append] at hd
  exact String.ext (List.append_cancel_right hd)

theorem str_append_ne_empty_of_left {a : String} (b : String) (h : a ≠ "") : a ++ b ≠ "" := by
  intro hab
  apply h
  have hd := congrArg String.data hab
  simp only [String.data_append] at hd
  exact String.ext (List.append_eq_nil.mp hd).1

theorem str_append_ne_empty_of_right (a : String) {b : String} (h : b ≠ "") : a ++ b ≠ "" := by
  intro hab
  apply h
  have hd := congrArg String.data hab
  simp only [String.data_append] at hd
  exact String.ext (List.append_eq_nil.mp hd).2

/-! ## Lemmas on the handlers -/

/-- No entry of the key is left once the entries of the key are filtered out. -/
theorem lookup_filter_ne (name : String) (l : List (String × String)) :
    (l.filter (fun p => p.1 != name)).lookup name = none := by
  induction l with
  | nil => rfl
  | cons p ps ih =>
    obtain ⟨k, v⟩ := p
    by_cases hp : k = name
    · subst hp
      simpa only [List.filter, bne_self_eq_false] using ih
    · have h1 : (k != name) = true := by simpa using hp
      have h2 : (name == k) = false := by simpa using fun h => hp h.symm
      simp only [List.filter, h1, List.lookup, h2]
      exact ih

/-- A request without the session cookie has no session cookie. -/
theorem Request.withoutCookie_Cookie (r : Request) (name : String) :
    (r.withoutCookie name).Cookie name = none :=
  lookup_filter_ne name r.Cookies

/-- The response of the unauthenticated path depends on the request headers
and the configuration only. -/
theorem handleAuthNoSession_resp (s : Server) (r r2 : Request) (calls calls2 : List Call)
    (h : r.Header = r2.Header) :
    (handleAuthNoSession s r calls).resp = (handleAuthNoSession s r2 calls2).resp := by
  unfold handleAuthNoSession
  rw [h]
  simp only
  split_ifs <;> rfl

/-- With no valid session, `handleAuth` answers as the unauthenticated path. -/
theorem handleAuth_of_noValidSession (s : Server) (r : Request) (hn : noValidSession s r) :
    (handleAuth s r).resp = (handleAuthNoSession s r []).resp := by
  unfold handleAuth
  rcases hn with h | h | ⟨value, e, h, he⟩
  · rw [h]
  · rw [h]; simp
  · rw [h]
    simp only
    split
    · rw [he]
      exact handleAuthNoSession_resp s r r _ _ rfl
    · rfl

/-! ## The forward-auth gate: theorems -/

/-- C1. Rule 1 of `handleAuth` wins over every later rule: when the session
cookie has a non-empty value on which `Validate` succeeds with session
`sess`, the response is status 200 with `X-User-DID = sess.DID`,
`X-User-Handle = sess.Handle` and no `Location` header, for every request,
so whatever its Authorization, Accept and forwarded headers are. -/
theorem handleAuth_valid_session_allows (s : Server) (r : Request) (value : String)
    (sess : Session) (hc : r.Cookie s.CookieName = some value) (hv : value ≠ "")
    (hs : s.Validate value = .ok sess) :
    (handleAuth s r).resp.Status = 200 ∧
    (handleAuth s r).resp.Header.Get "X-User-DID" = sess.DID ∧
    (handleAuth s r).resp.Header.Get "X-User-Handle" = sess.Handle ∧
    (handleAuth s r).resp.Header.Has "Location" = false := by
  unfold handleAuth
  rw [hc]
  simp only [hv, hs, ne_eq, not_false_eq_true, if_true]
  split
  · split
    · split <;> exact ⟨rfl, rfl, rfl, rfl⟩
    · exact ⟨rfl, rfl, rfl, rfl⟩
  · exact ⟨rfl, rfl, rfl, rfl⟩

/-- A request with a valid session cookie, an Authorization header, a JSON
Accept header and a forwarded host. -/
def requestWithSession : Request :=
  sampleRequest
    [("Authorization", "Bearer x"), ("Accept", "application/json"),
      ("X-Forwarded-Host", "git.example.com")]
    [("noknok_session", "tok-1")] []

theorem handleAuth_valid_session_allows_witness :
    (handleAuth sampleServer requestWithSession).resp.Status = 200 ∧
    (handleAuth sampleServer requestWithSession).resp.Header.Get "X-User-DID"
      = "did:plc:owner" ∧
    (handleAuth sampleServer requestWithSession).resp.Header.Get "X-User-Handle"
      = "owner.example.com" ∧
    (handleAuth sampleServer requestWithSession).resp.Header.Has "Location" = false :=
  handleAuth_valid_session_allows sampleServer requestWithSession "tok-1" sampleSession
    (by decide) (by decide) (by decide)

/-- The unauthenticated path sets none of the identity headers. -/
theorem handleAuthNoSession_no_identity (s : Server) (r : Request) (calls : List Call) :
    (handleAuthNoSession s r calls).resp.Header.Has "X-User-DID" = false ∧
    (handleAuthNoSession s r calls).resp.Header.Has "X-User-Handle" = false ∧
    (handleAuthNoSession s r calls).resp.Header.Has "X-User-Role" = false := by
  unfold handleAuthNoSession
  simp only
  split_ifs <;> exact ⟨rfl, rfl, rfl⟩

/-- C2. `handleAuth` fails closed: when `Validate` returns an error (whichever:
not found, expired, store error) on the session cookie of the request, the
whole response (status, `Location`, identity headers, body) is the response
to the same request with the session cookie removed, and none of
`X-User-DID`, `X-User-Handle`, `X-User-Role` is set. -/
theorem handleAuth_fails_closed (s : Server) (r : Request) (value e : String)
    (hc : r.Cookie s.CookieName = some value) (he : s.Validate value = .error e) :
    (handleAuth s r).resp = (handleAuth s (r.withoutCookie s.CookieName)).resp ∧
    (handleAuth s r).resp.Header.Has "X-User-DID" = false ∧
    (handleAuth s r).resp.Header.Has "X-User-Handle" = false ∧
    (handleAuth s r).resp.Header.Has "X-User-Role" = false := by
  have h1 := handleAuth_of_noValidSession s r (Or.inr (Or.inr ⟨value, e, hc, he⟩))
  have h2 := handleAuth_of_noValidSession s (r.withoutCookie s.CookieName)
    (Or.inl (Request.withoutCookie_Cookie r s.CookieName))
  have h3 := handleAuthNoSession_no_identity s r []
  rw [h1, h2]
  exact ⟨handleAuthNoSession_resp s r _ [] [] rfl, h3⟩

/-- A browser request to a protected host with an expired session cookie. -/
def requestExpired : Request :=
  sampleRequest
    [("Accept", "text/html"), ("X-Forwarded-Host", "git.example.com"),
      ("X-Forwarded-Uri", "/a b")]
    [("noknok_session", "tok-old")] []

theorem handleAuth_fails_closed_witness :
    (handleAuth sampleServer requestExpired).resp
      = (handleAuth sampleServer (requestExpired.withoutCookie "noknok_session")).resp ∧
    (handleAuth sampleServer requestExpired).resp.Header.Has "X-User-DID" = false ∧
    (handleAuth sampleServer requestExpired).resp.Header.Has "X-User-Handle" = false ∧
    (handleAuth sampleServer requestExpired).resp.Header.Has "X-User-Role" = false :=
  handleAuth_fails_closed sampleServer requestExpired "tok-old" "session expired"
    (by decide) (by decide)

/-- C5. Rule 2 of `handleAuth`: with no valid session (no cookie, empty cookie
value, or `Validate` fails) and a non-empty `X-Forwarded-Authorization` or
`Authorization` header, the response is status 200 with none of `X-User-DID`,
`X-User-Handle`, `X-User-Role` set and no `Location` header, whatever the
Accept headers are. -/
theorem handleAuth_authorization_passthrough (s : Server) (r : Request)
    (hn : noValidSession s r)
    (ha : r.Header.Get "X-Forwarded-Authorization" ≠ "" ∨ r.Header.Get "Authorization" ≠ "") :
    (handleAuth s r).resp.Status = 200 ∧
    (handleAuth s r).resp.Header.Has "X-User-DID" = false ∧
    (handleAuth s r).resp.Header.Has "X-User-Handle" = false ∧
    (handleAuth s r).resp.Header.Has "X-User-Role" = false ∧
    (handleAuth s r).resp.Header.Has "Location" = false := by
  rw [handleAuth_of_noValidSession s r hn]
  unfold handleAuthNoSession
  rw [if_pos ha]
  exact ⟨rfl, rfl, rfl, rfl, rfl⟩

/-- A request without a cookie that carries a bearer credential and accepts
HTML. -/
def requestBearer : Request :=
  sampleRequest [("Authorization", "Bearer x"), ("Accept", "text/html")] [] []

theorem handleAuth_authorization_passthrough_witness :
    (handleAuth sampleServer requestBearer).resp.Status = 200 ∧
    (handleAuth sampleServer requestBearer).resp.Header.Has "X-User-DID" = false ∧
    (handleAuth sampleServer requestBearer).resp.Header.Has "X-User-Handle" = false ∧
    (handleAuth sampleServer requestBearer).resp.Header.Has "X-User-Role" = false ∧
    (handleAuth sampleServer requestBearer).resp.Header.Has "Location" = false :=
  handleAuth_authorization_passthrough sampleServer requestBearer (Or.inl (by decide))
    (Or.inr (by decide))

/-- C6. Rule 3 of `handleAuth`: with no valid session and both
`X-Forwarded-Authorization` and `Authorization` empty, the response is status
401 with no `Location` header exactly when the effective Accept value
(`X-Forwarded-Accept` if non-empty, else `Accept`) does not contain
`text/html`. -/
theorem handleAuth_unauthorized_iff (s : Server) (r : Request)
    (hn : noValidSession s r)
    (hfa : r.Header.Get "X-Forwarded-Authorization" = "")
    (ha : r.Header.Get "Authorization" = "") :
    ((handleAuth s r).resp.Status = 401 ∧
        (handleAuth s r).resp.Header.Has "Location" = false) ↔
      strings.Contains (effectiveAccept r) "text/html" = false := by
  rw [handleAuth_of_noValidSession s r hn]
  unfold handleAuthNoSession effectiveAccept
  simp only [hfa, ha, ne_eq, not_true_eq_false, or_self, if_false]
  by_cases hx : r.Header.Get "X-Forwarded-Accept" = ""
  · simp only [hx, if_true, not_true_eq_false, if_false]
    cases hcont : strings.Contains (r.Header.Get "Accept") "text/html"
    · simp only [Bool.not_false, if_true]
      exact ⟨fun _ => trivial, fun _ => ⟨rfl, rfl⟩⟩
    · simp only [Bool.not_true, Bool.false_eq_true, if_false]
      constructor
      · intro h
        exact absurd (show (302 : Nat) = 401 from h.1) (by decide)
      · intro h
        exact absurd h (by decide)
  · simp only [hx, if_false, not_false_eq_true, if_true]
    cases hcont : strings.Contains (r.Header.Get "X-Forwarded-Accept") "text/html"
    · simp only [Bool.not_false, if_true]
      exact ⟨fun _ => trivial, fun _ => ⟨rfl, rfl⟩⟩
    · simp only [Bool.not_true, Bool.false_eq_true, if_false]
      constructor
      · intro h
        exact absurd (show (302 : Nat) = 401 from h.1) (by decide)
      · intro h
        exact absurd h (by decide)

/-- A request without a cookie from a client that accepts JSON only. -/
def requestJSON : Request :=
  sampleRequest [("Accept", "application/json"), ("X-Forwarded-Host", "git.example.com")] [] []

theorem handleAuth_unauthorized_iff_witness :
    ((handleAuth sampleServer requestJSON).resp.Status = 401 ∧
        (handleAuth sampleServer requestJSON).resp.Header.Has "Location" = false) ↔
      strings.Contains (effectiveAccept requestJSON) "text/html" = false :=
  handleAuth_unauthorized_iff sampleServer requestJSON (Or.inl (by decide)) (by decide)
    (by decide)

/-- The Accept value read by `handleAuth` is the effective Accept value. -/
theorem accept_eq_effectiveAccept (r : Request) :
    (if r.Header.Get "X-Forwarded-Accept" = "" then r.Header.Get "Accept"
      else r.Header.Get "X-Forwarded-Accept") = effectiveAccept r := by
  unfold effectiveAccept
  by_cases hx : r.Header.Get "X-Forwarded-Accept" = "" <;> simp [hx]

/-- The login URL with its query, as one concatenation. -/
theorem login_redirect_url (p e : String) :
    p ++ "/login" ++ ("?redirect=" ++ e) = p ++ "/login?redirect=" ++ e := by
  have h : "/login?redirect=" = "/login" ++ "?redirect=" := by decide
  rw [h]
  simp only [String.append_assoc]

/-- C7. Rule 4 of `handleAuth`: with no valid session, no Authorization
credential, an effective Accept containing `text/html` and a non-empty
`X-Forwarded-Host`, the response is status 302 with `Location` exactly
`PublicURL + "/login?redirect=" + QueryEscape(scheme + "://" +
X-Forwarded-Host + X-Forwarded-Uri)`, where scheme is `X-Forwarded-Proto`, or
`https` when that header is empty. -/
theorem handleAuth_redirects_to_login (s : Server) (r : Request)
    (hn : noValidSession s r)
    (hfa : r.Header.Get "X-Forwarded-Authorization" = "")
    (ha : r.Header.Get "Authorization" = "")
    (hacc : strings.Contains (effectiveAccept r) "text/html" = true)
    (hhost : r.Header.Get "X-Forwarded-Host" ≠ "") :
    (handleAuth s r).resp.Status = 302 ∧
    (handleAuth s r).resp.Header.Get "Location" =
      s.cfg.PublicURL ++ "/login?redirect=" ++
        url.QueryEscape
          ((if r.Header.Get "X-Forwarded-Proto" = "" then "https"
              else r.Header.Get "X-Forwarded-Proto") ++ "://" ++
            r.Header.Get "X-Forwarded-Host" ++ r.Header.Get "X-Forwarded-Uri") := by
  have htarget : (if r.Header.Get "X-Forwarded-Proto" = "" then "https"
      else r.Header.Get "X-Forwarded-Proto") ++ "://" ++
        r.Header.Get "X-Forwarded-Host" ++ r.Header.Get "X-Forwarded-Uri" ≠ "" :=
    str_append_ne_empty_of_left _ (str_append_ne_empty_of_right _ hhost)
  rw [handleAuth_of_noValidSession s r hn]
  unfold handleAuthNoSession
  simp only [hfa, ha, ne_eq, not_true_eq_false, or_self, if_false, accept_eq_effectiveAccept,
    hacc, Bool.not_true, Bool.false_eq_true, hhost, not_false_eq_true, if_true, htarget,
    login_redirect_url]
  exact ⟨rfl, rfl⟩

/-- A browser request without a cookie, forwarded for `git.example.com`. -/
def requestBrowser : Request :=
  sampleRequest
    [("Accept", "text/html,application/xhtml+xml"), ("X-Forwarded-Host", "git.example.com"),
      ("X-Forwarded-Uri", "/a b?x=1")] [] []

theorem handleAuth_redirects_to_login_witness :
    (handleAuth sampleServer requestBrowser).resp.Status = 302 ∧
    (handleAuth sampleServer requestBrowser).resp.Header.Get "Location" =
      "https://portal.example.com" ++ "/login?redirect=" ++
        url.QueryEscape ("https" ++ "://" ++ "git.example.com" ++ "/a b?x=1") :=
  handleAuth_redirects_to_login sampleServer requestBrowser (Or.inl (by decide)) (by decide)
    (by decide) (by decide) (by decide)

/-- C8. The role header is best-effort: with a valid session the status is 200
whatever `GetUserServiceRole` returns (an error included), and `X-User-Role`
is set if and only if `X-Forwarded-Host` is non-empty and
`GetUserServiceRole(sess.DID, host)` returns no error and a non-empty role;
the header value is then that role. -/
theorem handleAuth_role_best_effort (s : Server) (r : Request) (value : String)
    (sess : Session) (hc : r.Cookie s.CookieName = some value) (hv : value ≠ "")
    (hs : s.Validate value = .ok sess) :
    (handleAuth s r).resp.Status = 200 ∧
    ((handleAuth s r).resp.Header.Has "X-User-Role" = true ↔
      (r.Header.Get "X-Forwarded-Host" ≠ "" ∧
        ∃ role, s.GetUserServiceRole sess.DID (r.Header.Get "X-Forwarded-Host") = .ok role ∧
          role ≠ "")) ∧
    (∀ role, r.Header.Get "X-Forwarded-Host" ≠ "" →
      s.GetUserServiceRole sess.DID (r.Header.Get "X-Forwarded-Host") = .ok role →
      role ≠ "" → (handleAuth s r).resp.Header.Get "X-User-Role" = role) := by
  unfold handleAuth
  rw [hc]
  simp only [hv, hs, ne_eq, not_false_eq_true, if_true]
  by_cases hh : r.Header.Get "X-Forwarded-Host" = ""
  · simp only [hh, not_true_eq_false, if_false, false_and, iff_false, false_implies,
      implies_true, and_true]
    exact ⟨rfl, fun h => absurd (show false = true from h) (by decide)⟩
  · simp only [hh, not_false_eq_true, if_true, true_and, forall_const]
    cases hr : s.GetUserServiceRole sess.DID (r.Header.Get "X-Forwarded-Host") with
    | error e =>
      refine ⟨rfl, ⟨fun h => absurd (show false = true from h) (by decide), fun h => ?_⟩, fun role h => ?_⟩
      · obtain ⟨role, h1, _⟩ := h
        cases h1
      · cases h
    | ok role0 =>
      by_cases hrole : role0 = ""
      · simp only [hrole, not_true_eq_false, if_false]
        refine ⟨rfl, ⟨fun h => absurd (show false = true from h) (by decide), fun h => ?_⟩, fun role h hne => ?_⟩
        · obtain ⟨role, h1, h2⟩ := h
          cases h1
          exact absurd rfl h2
        · cases h
          exact absurd rfl hne
      · simp only [hrole, not_false_eq_true, if_true]
        refine ⟨rfl, ⟨fun _ => ⟨role0, rfl, hrole⟩, fun _ => rfl⟩, fun role h _ => ?_⟩
        cases h
        rfl

theorem handleAuth_role_best_effort_witness :
    (handleAuth sampleServer requestWithSession).resp.Status = 200 ∧
    ((handleAuth sampleServer requestWithSession).resp.Header.Has "X-User-Role" = true ↔
      (requestWithSession.Header.Get "X-Forwarded-Host" ≠ "" ∧
        ∃ role, sampleServer.GetUserServiceRole sampleSession.DID
            (requestWithSession.Header.Get "X-Forwarded-Host") = .ok role ∧ role ≠ "")) ∧
    (∀ role, requestWithSession.Header.Get "X-Forwarded-Host" ≠ "" →
      sampleServer.GetUserServiceRole sampleSession.DID
        (requestWithSession.Header.Get "X-Forwarded-Host") = .ok role →
      role ≠ "" →
      (handleAuth sampleServer requestWithSession).resp.Header.Get "X-User-Role" = role) :=
  handleAuth_role_best_effort sampleServer requestWithSession "tok-1" sampleSession
    (by decide) (by decide) (by decide)

/-! ## Redirect validation: theorems -/

/-- The cookie domain with its leading dot removed (the domain itself when it
has none). -/
def domainWithoutDot (domain : String) : String :=
  if strings.HasPrefix domain "." then ⟨domain.data.drop 1⟩ else domain

/-- A domain with a leading dot is the dot followed by the rest. -/
theorem dot_append_domainWithoutDot (domain : String)
    (h : strings.HasPrefix domain "." = true) : "." ++ domainWithoutDot domain = domain := by
  unfold domainWithoutDot
  rw [if_pos h]
  unfold strings.HasPrefix at h
  apply String.ext
  rw [String.data_append]
  cases hd : domain.data with
  | nil => rw [hd] at h; exact absurd h (by decide)
  | cons c cs =>
    rw [hd] at h
    have hc : c = '.' := by
      have h2 : ('.' == c) = true := by simpa [List.isPrefixOf] using h
      exact (beq_iff_eq.mp h2).symm
    subst hc
    rfl

/-- The verdict of `isAllowedRedirect` depends on the cookie domain only. -/
theorem isAllowedRedirect_cookieDomain (rawURL : String) (cfg : Config) :
    isAllowedRedirect rawURL cfg = isAllowedRedirect rawURL ⟨"", "", cfg.CookieDomain⟩ := rfl

/-- The verdict of `isAllowedRedirect` on a URL that parses with scheme http
or https. -/
theorem isAllowedRedirect_of_parse (rawURL : String) (cfg : Config) (u : url.URL)
    (hp : url.Parse rawURL = .ok u) (hs : u.Scheme = "http" ∨ u.Scheme = "https") :
    isAllowedRedirect rawURL cfg =
      if strings.HasPrefix cfg.CookieDomain "." then
        (u.Host == (⟨cfg.CookieDomain.data.drop 1⟩ : String)
          || strings.HasSuffix u.Host cfg.CookieDomain)
      else u.Host == cfg.CookieDomain := by
  unfold isAllowedRedirect
  rw [hp]
  have hns : ¬(u.Scheme ≠ "http" ∧ u.Scheme ≠ "https") := by
    rintro ⟨h1, h2⟩
    rcases hs with h | h
    · exact h1 h
    · exact h2 h
  simp only [hns, if_false]

/-- C3. `isAllowedRedirect` accepts nothing outside the rule: when it returns
true, the input parses as a URL whose scheme is exactly `http` or `https` and
whose host is exactly the cookie domain with its leading dot removed, or ends
with `.` followed by that domain. So with cookie domain `.example.com` the
accepted input is none of `https://evil.com/`, the look-alike
`https://evilexample.com/` and `javascript:alert(1)`. -/
theorem isAllowedRedirect_sound (rawURL : String) (cfg : Config)
    (h : isAllowedRedirect rawURL cfg = true) :
    (∃ u, url.Parse rawURL = .ok u ∧ (u.Scheme = "http" ∨ u.Scheme = "https") ∧
      (u.Host = domainWithoutDot cfg.CookieDomain ∨
        strings.HasSuffix u.Host ("." ++ domainWithoutDot cfg.CookieDomain) = true)) ∧
    (cfg.CookieDomain = ".example.com" →
      rawURL ≠ "https://evil.com/" ∧ rawURL ≠ "https://evilexample.com/" ∧
        rawURL ≠ "javascript:alert(1)") := by
  constructor
  · unfold isAllowedRedirect at h
    cases hp : url.Parse rawURL with
    | error e => rw [hp] at h; exact absurd (show false = true from h) (by decide)
    | ok u =>
      rw [hp] at h
      simp only at h
      by_cases hs : u.Scheme ≠ "http" ∧ u.Scheme ≠ "https"
      · rw [if_pos hs] at h
        exact absurd h (by decide)
      · rw [if_neg hs] at h
        have hscheme : u.Scheme = "http" ∨ u.Scheme = "https" := by
          by_cases h1 : u.Scheme = "http"
          · exact Or.inl h1
          · by_cases h2 : u.Scheme = "https"
            · exact Or.inr h2
            · exact absurd ⟨h1, h2⟩ hs
        refine ⟨u, rfl, hscheme, ?_⟩
        by_cases hd : strings.HasPrefix cfg.CookieDomain "." = true
        · rw [if_pos hd] at h
          rw [dot_append_domainWithoutDot _ hd]
          rcases Bool.or_eq_true _ _ ▸ h with h1 | h2
          · left
            unfold domainWithoutDot
            rw [if_pos hd]
            exact beq_iff_eq.mp h1
          · exact Or.inr h2
        · rw [if_neg hd] at h
          left
          unfold domainWithoutDot
          rw [if_neg hd]
          exact beq_iff_eq.mp h
  · intro hd
    rw [isAllowedRedirect_cookieDomain, hd] at h
    refine ⟨?_, ?_, ?_⟩ <;> (intro hr; rw [hr] at h; revert h; decide)

theorem isAllowedRedirect_sound_witness :
    (∃ u, url.Parse "https://portal.example.com/x" = .ok u ∧
      (u.Scheme = "http" ∨ u.Scheme = "https") ∧
      (u.Host = domainWithoutDot sampleServer.cfg.CookieDomain ∨
        strings.HasSuffix u.Host ("." ++ domainWithoutDot sampleServer.cfg.CookieDomain)
          = true)) ∧
    (sampleServer.cfg.CookieDomain = ".example.com" →
      "https://portal.example.com/x" ≠ "https://evil.com/" ∧
        "https://portal.example.com/x" ≠ "https://evilexample.com/" ∧
        "https://portal.example.com/x" ≠ "javascript:alert(1)") :=
  isAllowedRedirect_sound "https://portal.example.com/x" sampleServer.cfg (by decide)

/-- C4, as stated, fails: with the cookie domain `example.com` configured
without a leading dot, `https://portal.example.com/x` parses as an absolute
https URL whose host `portal.example.com` is a subdomain of the cookie domain,
and `isAllowedRedirect` rejects it. -/
theorem isAllowedRedirect_rejects_subdomain_of_dotless_domain :
    url.Parse "https://portal.example.com/x"
      = .ok ⟨"https", "", "portal.example.com", "/x", false, "", ""⟩ ∧
    strings.HasSuffix "portal.example.com" ("." ++ "example.com") = true ∧
    isAllowedRedirect "https://portal.example.com/x"
      ⟨"https://portal.example.com", "did:plc:owner", "example.com"⟩ = false := by
  decide

/-- C4, amended. For a URL that parses with scheme `http` or `https`: when the
cookie domain starts with a dot, `isAllowedRedirect` returns true exactly when
the host equals the domain without that dot or ends with the domain (dot
included); when it does not start with a dot, exactly when the host equals the
cookie domain, so subdomains are accepted for a dotted cookie domain only. -/
theorem isAllowedRedirect_accepts_iff (rawURL : String) (cfg : Config) (u : url.URL)
    (hp : url.Parse rawURL = .ok u) (hs : u.Scheme = "http" ∨ u.Scheme = "https") :
    (strings.HasPrefix cfg.CookieDomain "." = true →
      (isAllowedRedirect rawURL cfg = true ↔
        (u.Host = (⟨cfg.CookieDomain.data.drop 1⟩ : String) ∨
          strings.HasSuffix u.Host cfg.CookieDomain = true))) ∧
    (strings.HasPrefix cfg.CookieDomain "." = false →
      (isAllowedRedirect rawURL cfg = true ↔ u.Host = cfg.CookieDomain)) := by
  rw [isAllowedRedirect_of_parse rawURL cfg u hp hs]
  constructor
  · intro hd
    rw [if_pos hd, Bool.or_eq_true, beq_iff_eq]
  · intro hd
    rw [if_neg (by rw [hd]; decide), beq_iff_eq]

theorem isAllowedRedirect_accepts_iff_witness :
    (strings.HasPrefix sampleServer.cfg.CookieDomain "." = true →
      (isAllowedRedirect "https://portal.example.com/x" sampleServer.cfg = true ↔
        ("portal.example.com" = (⟨sampleServer.cfg.CookieDomain.data.drop 1⟩ : String) ∨
          strings.HasSuffix "portal.example.com" sampleServer.cfg.CookieDomain = true))) ∧
    (strings.HasPrefix sampleServer.cfg.CookieDomain "." = false →
      (isAllowedRedirect "https://portal.example.com/x" sampleServer.cfg = true ↔
        "portal.example.com" = sampleServer.cfg.CookieDomain)) :=
  isAllowedRedirect_accepts_iff "https://portal.example.com/x" sampleServer.cfg
    ⟨"https", "", "portal.example.com", "/x", false, "", ""⟩ (by decide) (Or.inr (by decide))

/-! ## The login submission: theorems -/

/-- The response to a login submission whose trimmed handle or password is
empty. -/
theorem handleLogin_of_empty (s : Server) (r : Request)
    (h : strings.TrimSpace (r.FormValue "handle") = "" ∨ r.FormValue "password" = "") :
    handleLogin s r =
      ⟨Response.fresh.HTML 200
          (loginHTML (r.FormValue "redirect") "Handle and app password are required."), []⟩ := by
  unfold handleLogin
  simp only [h, if_true]

/-- The response to a login submission on which `Authenticate` fails. -/
theorem handleLogin_of_auth_error (s : Server) (r : Request) (e : String)
    (hh : strings.TrimSpace (r.FormValue "handle") ≠ "") (hp : r.FormValue "password" ≠ "")
    (ha : s.Authenticate (strings.TrimSpace (r.FormValue "handle")) (r.FormValue "password")
      = .error e) :
    handleLogin s r =
      ⟨Response.fresh.HTML 200
          (loginHTML (r.FormValue "redirect")
            "Authentication failed. Check your handle and app password."),
        [.Authenticate (strings.TrimSpace (r.FormValue "handle")) (r.FormValue "password")]⟩ := by
  unfold handleLogin
  simp only [hh, hp, or_self, if_false, ha]

/-- The response to a login submission authenticated as a DID other than the
owner. -/
theorem handleLogin_of_not_owner (s : Server) (r : Request) (did resolvedHandle : String)
    (hh : strings.TrimSpace (r.FormValue "handle") ≠ "") (hp : r.FormValue "password" ≠ "")
    (ha : s.Authenticate (strings.TrimSpace (r.FormValue "handle")) (r.FormValue "password")
      = .ok (did, resolvedHandle))
    (hd : did ≠ s.cfg.OwnerDID) :
    handleLogin s r =
      ⟨Response.fresh.HTML 200
          (loginHTML (r.FormValue "redirect") "Access denied. You are not authorized."),
        [.Authenticate (strings.TrimSpace (r.FormValue "handle")) (r.FormValue "password")]⟩ := by
  unfold handleLogin
  simp only [hh, hp, or_self, if_false, ha, ne_eq, hd, not_false_eq_true, if_true]

/-- The login page determines its error message, when there is one. -/
theorem loginHTML_errMsg_injective (redirect a b : String) (ha : a ≠ "") (hb : b ≠ "")
    (h : loginHTML redirect a = loginHTML redirect b) : a = b := by
  unfold loginHTML at h
  simp only [ne_eq, ha, hb, not_false_eq_true, if_true] at h
  have h1 := str_append_right_cancel (str_append_right_cancel (str_append_right_cancel h))
  have h2 := str_append_right_cancel (str_append_left_cancel h1)
  exact str_append_left_cancel h2

/-- C9. Login allow-list: `handleLogin` calls `Create` or sets a cookie only if
the handle and the secret are non-empty, `Authenticate` succeeded, and the
durable id it returned equals the configured owner id; in every other case no
session is created and no cookie is set. -/
theorem handleLogin_allow_list (s : Server) (r : Request)
    (h : (∃ did handle, Call.Create did handle ∈ (handleLogin s r).calls) ∨
      (handleLogin s r).resp.SetCookies ≠ []) :
    r.FormValue "handle" ≠ "" ∧ r.FormValue "password" ≠ "" ∧
    ∃ did resolvedHandle,
      s.Authenticate (strings.TrimSpace (r.FormValue "handle")) (r.FormValue "password")
        = .ok (did, resolvedHandle) ∧ did = s.cfg.OwnerDID := by
  by_cases he : strings.TrimSpace (r.FormValue "handle") = "" ∨ r.FormValue "password" = ""
  · rw [handleLogin_of_empty s r he] at h
    rcases h with ⟨_, _, hm⟩ | hc
    · cases hm
    · exact absurd rfl hc
  · have hh : strings.TrimSpace (r.FormValue "handle") ≠ "" := fun h0 => he (Or.inl h0)
    have hp : r.FormValue "password" ≠ "" := fun h0 => he (Or.inr h0)
    have hraw : r.FormValue "handle" ≠ "" := by
      intro h0
      rw [h0] at hh
      exact hh (by decide)
    refine ⟨hraw, hp, ?_⟩
    cases ha : s.Authenticate (strings.TrimSpace (r.FormValue "handle"))
        (r.FormValue "password") with
    | error e =>
      rw [handleLogin_of_auth_error s r e hh hp ha] at h
      rcases h with ⟨_, _, hm⟩ | hc
      · simp only [List.mem_singleton] at hm
        cases hm
      · exact absurd rfl hc
    | ok p =>
      obtain ⟨did, resolvedHandle⟩ := p
      by_cases hd : did = s.cfg.OwnerDID
      · exact ⟨did, resolvedHandle, rfl, hd⟩
      · rw [handleLogin_of_not_owner s r did resolvedHandle hh hp ha hd] at h
        rcases h with ⟨_, _, hm⟩ | hc
        · simp only [List.mem_singleton] at hm
          cases hm
        · exact absurd rfl hc

/-- The login submission of the owner, with white space around the handle. -/
def requestLoginOwner : Request :=
  sampleRequest [] []
    [("handle", " owner.example.com "), ("password", "pw"),
      ("redirect", "https://git.example.com/x")]

theorem handleLogin_allow_list_witness :
    requestLoginOwner.FormValue "handle" ≠ "" ∧ requestLoginOwner.FormValue "password" ≠ "" ∧
    ∃ did resolvedHandle,
      sampleServer.Authenticate (strings.TrimSpace (requestLoginOwner.FormValue "handle"))
        (requestLoginOwner.FormValue "password") = .ok (did, resolvedHandle) ∧
      did = sampleServer.cfg.OwnerDID :=
  handleLogin_allow_list sampleServer requestLoginOwner
    (Or.inl ⟨"did:plc:owner", "owner.example.com", by decide⟩)

/-- The sample server with an identity resolver that rejects every login. -/
def sampleServerAuthFails : Server :=
  { sampleServer with
    Authenticate := fun _ _ => .error "authenticate: createSession returned status 401" }

/-- The login submission of a guest, whose DID is not the owner DID. -/
def requestLoginGuest : Request :=
  sampleRequest [] [] [("handle", "guest.example.com"), ("password", "pw")]

/-- C10, as stated, fails: the same login submission gets the message
"Authentication failed. Check your handle and app password." from a server on
which external authentication fails, and "Access denied. You are not
authorized." from a server on which it succeeds with a durable id that is not
the owner id, so the two response bodies differ. -/
theorem handleLogin_credential_errors_distinguished :
    sampleServerAuthFails.Authenticate "guest.example.com" "pw"
      = .error "authenticate: createSession returned status 401" ∧
    sampleServer.Authenticate "guest.example.com" "pw"
      = .ok ("did:plc:guest", "guest.example.com") ∧
    "did:plc:guest" ≠ sampleServer.cfg.OwnerDID ∧
    (handleLogin sampleServerAuthFails requestLoginGuest).resp.Body
      = loginHTML "" "Authentication failed. Check your handle and app password." ∧
    (handleLogin sampleServer requestLoginGuest).resp.Body
      = loginHTML "" "Access denied. You are not authorized." ∧
    (handleLogin sampleServerAuthFails requestLoginGuest).resp.Body
      ≠ (handleLogin sampleServer requestLoginGuest).resp.Body := by
  have h1 := handleLogin_of_auth_error sampleServerAuthFails requestLoginGuest
    "authenticate: createSession returned status 401" (by decide) (by decide) (by decide)
  have h2 := handleLogin_of_not_owner sampleServer requestLoginGuest "did:plc:guest"
    "guest.example.com" (by decide) (by decide) (by decide) (by decide)
  have hr : requestLoginGuest.FormValue "redirect" = "" := by decide
  rw [hr] at h1 h2
  refine ⟨by decide, by decide, by decide, ?_, ?_, ?_⟩
  · rw [h1]; rfl
  · rw [h2]; rfl
  · rw [h1, h2]
    intro h
    exact absurd (loginHTML_errMsg_injective "" _ _ (by decide) (by decide) h) (by decide)

/-- C10, amended. For a login submission whose handle (white space trimmed)
and secret are non-empty, the outcome is the login page with status 200, no
cookie and no `Create` call, and it is fixed by the kind of failure alone:
when `Authenticate` fails, whatever the error, the message is "Authentication
failed. Check your handle and app password."; when it succeeds with a durable
id other than the owner id, whatever the id and handle, the message is "Access
denied. You are not authorized.". -/
theorem handleLogin_credential_errors (s : Server) (r : Request)
    (hh : strings.TrimSpace (r.FormValue "handle") ≠ "") (hp : r.FormValue "password" ≠ "") :
    (∀ e, s.Authenticate (strings.TrimSpace (r.FormValue "handle")) (r.FormValue "password")
        = .error e →
      handleLogin s r =
        ⟨Response.fresh.HTML 200
            (loginHTML (r.FormValue "redirect")
              "Authentication failed. Check your handle and app password."),
          [.Authenticate (strings.TrimSpace (r.FormValue "handle")) (r.FormValue "password")]⟩ ∧
      (handleLogin s r).resp.Status = 200 ∧ (handleLogin s r).resp.SetCookies = []) ∧
    (∀ did resolvedHandle,
      s.Authenticate (strings.TrimSpace (r.FormValue "handle")) (r.FormValue "password")
        = .ok (did, resolvedHandle) →
      did ≠ s.cfg.OwnerDID →
      handleLogin s r =
        ⟨Response.fresh.HTML 200
            (loginHTML (r.FormValue "redirect") "Access denied. You are not authorized."),
          [.Authenticate (strings.TrimSpace (r.FormValue "handle")) (r.FormValue "password")]⟩ ∧
      (handleLogin s r).resp.Status = 200 ∧ (handleLogin s r).resp.SetCookies = []) := by
  refine ⟨fun e ha => ?_, fun did resolvedHandle ha hd => ?_⟩
  · rw [handleLogin_of_auth_error s r e hh hp ha]
    exact ⟨rfl, rfl, rfl⟩
  · rw [handleLogin_of_not_owner s r did resolvedHandle hh hp ha hd]
    exact ⟨rfl, rfl, rfl⟩

theorem handleLogin_credential_errors_witness :
    (∀ e, sampleServer.Authenticate (strings.TrimSpace (requestLoginGuest.FormValue "handle"))
        (requestLoginGuest.FormValue "password") = .error e →
      handleLogin sampleServer requestLoginGuest =
        ⟨Response.fresh.HTML 200
            (loginHTML (requestLoginGuest.FormValue "redirect")
              "Authentication failed. Check your handle and app password."),
          [.Authenticate (strings.TrimSpace (requestLoginGuest.FormValue "handle"))
            (requestLoginGuest.FormValue "password")]⟩ ∧
      (handleLogin sampleServer requestLoginGuest).resp.Status = 200 ∧
      (handleLogin sampleServer requestLoginGuest).resp.SetCookies = []) ∧
    (∀ did resolvedHandle,
      sampleServer.Authenticate (strings.TrimSpace (requestLoginGuest.FormValue "handle"))
        (requestLoginGuest.FormValue "password") = .ok (did, resolvedHandle) →
      did ≠ sampleServer.cfg.OwnerDID →
      handleLogin sampleServer requestLoginGuest =
        ⟨Response.fresh.HTML 200
            (loginHTML (requestLoginGuest.FormValue "redirect")
              "Access denied. You are not authorized."),
          [.Authenticate (strings.TrimSpace (requestLoginGuest.FormValue "handle"))
            (requestLoginGuest.FormValue "password")]⟩ ∧
      (handleLogin sampleServer requestLoginGuest).resp.Status = 200 ∧
      (handleLogin sampleServer requestLoginGuest).resp.SetCookies = []) :=
  handleLogin_credential_errors sampleServer requestLoginGuest (by decide) (by decide)

/-! ## Identity handlers: lemmas -/

/-- The calls through which a handler changes the session store. -/
def Call.isMutating : Call → Bool
  | .Create _ _ => true
  | .SwitchTo _ _ => true
  | .DestroyOne _ _ _ => true
  | .Destroy _ => true
  | _ => false

/-- Without a valid session `handleSwitchIdentity` redirects to the login
page, having called `Validate` at most. -/
theorem handleSwitchIdentity_of_noValidSession (s : Server) (r : Request)
    (hn : noValidSession s r) :
    (handleSwitchIdentity s r).resp = Response.fresh.Redirect 302 (s.cfg.PublicURL ++ "/login") ∧
    ((handleSwitchIdentity s r).calls = [] ∨
      ∃ value, (handleSwitchIdentity s r).calls = [.Validate value]) := by
  unfold handleSwitchIdentity
  rcases hn with h | h | ⟨value, e, h, he⟩
  · rw [h]
    exact ⟨rfl, Or.inl rfl⟩
  · rw [h]
    exact ⟨rfl, Or.inl rfl⟩
  · rw [h]
    simp only
    split
    · exact ⟨rfl, Or.inl rfl⟩
    · rw [he]
      exact ⟨rfl, Or.inr ⟨value, rfl⟩⟩

/-- Without a valid session `handleLogoutOne` redirects to the login page,
having called `Validate` at most. -/
theorem handleLogoutOne_of_noValidSession (s : Server) (r : Request)
    (hn : noValidSession s r) :
    (handleLogoutOne s r).resp = Response.fresh.Redirect 302 (s.cfg.PublicURL ++ "/login") ∧
    ((handleLogoutOne s r).calls = [] ∨
      ∃ value, (handleLogoutOne s r).calls = [.Validate value]) := by
  unfold handleLogoutOne
  rcases hn with h | h | ⟨value, e, h, he⟩
  · rw [h]
    exact ⟨rfl, Or.inl rfl⟩
  · rw [h]
    exact ⟨rfl, Or.inl rfl⟩
  · rw [h]
    simp only
    split
    · exact ⟨rfl, Or.inl rfl⟩
    · rw [he]
      exact ⟨rfl, Or.inr ⟨value, rfl⟩⟩

/-- With a valid session, `handleSwitchIdentity` is decided by the `id` field
and by `SwitchTo` on the group of that session. -/
theorem handleSwitchIdentity_of_session (s : Server) (r : Request) (value : String)
    (sess : Session) (hc : r.Cookie s.CookieName = some value) (hv : value ≠ "")
    (hs : s.Validate value = .ok sess) :
    handleSwitchIdentity s r =
      match strconv.ParseInt (r.FormValue "id") with
      | .error _ => ⟨Response.fresh.Redirect 302 (s.cfg.PublicURL ++ "/"), [.Validate value]⟩
      | .ok targetID =>
        match s.SwitchTo sess.GroupID targetID with
        | .error _ =>
          ⟨Response.fresh.Redirect 302 (s.cfg.PublicURL ++ "/"),
            [.Validate value, .SwitchTo sess.GroupID targetID]⟩
        | .ok newCookie =>
          ⟨(Response.fresh.SetCookie newCookie).Redirect 302 (s.cfg.PublicURL ++ "/"),
            [.Validate value, .SwitchTo sess.GroupID targetID]⟩ := by
  unfold handleSwitchIdentity
  rw [hc]
  simp only [hv, if_false, hs]

/-- With a valid session and a parsed target id, `handleLogoutOne` is decided
by `DestroyOne` on the group of that session. -/
theorem handleLogoutOne_of_session (s : Server) (r : Request) (value : String)
    (sess : Session) (hc : r.Cookie s.CookieName = some value) (hv : value ≠ "")
    (hs : s.Validate value = .ok sess) :
    handleLogoutOne s r =
      match strconv.ParseInt (r.FormValue "id") with
      | .error _ => ⟨Response.fresh.Redirect 302 (s.cfg.PublicURL ++ "/"), [.Validate value]⟩
      | .ok targetID =>
        match s.DestroyOne sess.GroupID targetID (targetID == sess.ID) with
        | .error _ =>
          ⟨Response.fresh.Redirect 302 (s.cfg.PublicURL ++ "/"),
            [.Validate value, .DestroyOne sess.GroupID targetID (targetID == sess.ID)]⟩
        | .ok none =>
          ⟨Response.fresh.Redirect 302 (s.cfg.PublicURL ++ "/"),
            [.Validate value, .DestroyOne sess.GroupID targetID (targetID == sess.ID)]⟩
        | .ok (some cookie) =>
          if (targetID == sess.ID && cookie.MaxAge == -1) = true then
            ⟨(Response.fresh.SetCookie cookie).Redirect 302 (s.cfg.PublicURL ++ "/login"),
              [.Validate value, .DestroyOne sess.GroupID targetID (targetID == sess.ID)]⟩
          else
            ⟨(Response.fresh.SetCookie cookie).Redirect 302 (s.cfg.PublicURL ++ "/"),
              [.Validate value, .DestroyOne sess.GroupID targetID (targetID == sess.ID)]⟩ := by
  unfold handleLogoutOne
  rw [hc]
  simp only [hv, if_false, hs]
  cases strconv.ParseInt (r.FormValue "id") with
  | error e => rfl
  | ok targetID =>
    simp only
    cases s.DestroyOne sess.GroupID targetID (targetID == sess.ID) with
    | error e => rfl
    | ok newCookie =>
      cases newCookie with
      | none => rfl
      | some cookie => rfl

/-- A request either has no valid session or a non-empty session cookie on
which `Validate` succeeds. -/
theorem noValidSession_or_session (s : Server) (r : Request) :
    noValidSession s r ∨
      ∃ value sess, r.Cookie s.CookieName = some value ∧ value ≠ "" ∧
        s.Validate value = .ok sess := by
  cases hc : r.Cookie s.CookieName with
  | none => exact Or.inl (Or.inl hc)
  | some value =>
    by_cases hv : value = ""
    · subst hv
      exact Or.inl (Or.inr (Or.inl hc))
    · cases hs : s.Validate value with
      | error e => exact Or.inl (Or.inr (Or.inr ⟨value, e, hc, hs⟩))
      | ok sess => exact Or.inr ⟨value, sess, rfl, hv, hs⟩

/-- The outcome of a login submission that creates a session. -/
theorem handleLogin_of_success (s : Server) (r : Request) (resolvedHandle : String)
    (cookie : Cookie)
    (hh : strings.TrimSpace (r.FormValue "handle") ≠ "") (hp : r.FormValue "password" ≠ "")
    (ha : s.Authenticate (strings.TrimSpace (r.FormValue "handle")) (r.FormValue "password")
      = .ok (s.cfg.OwnerDID, resolvedHandle))
    (hc : s.Create s.cfg.OwnerDID resolvedHandle = .ok cookie) :
    handleLogin s r =
      ⟨(Response.fresh.SetCookie cookie).Redirect 302
          (if r.FormValue "redirect" ≠ "" ∧ isAllowedRedirect (r.FormValue "redirect") s.cfg = true
            then r.FormValue "redirect" else s.cfg.PublicURL ++ "/"),
        [.Authenticate (strings.TrimSpace (r.FormValue "handle")) (r.FormValue "password"),
          .Create s.cfg.OwnerDID resolvedHandle]⟩ := by
  unfold handleLogin
  simp only [hh, hp, or_self, if_false, ha, ne_eq, not_true_eq_false, hc]

/-! ## Post-login destination: theorem -/

/-- C11. Post-login destination: for every successful login (handle and
secret non-empty, `Authenticate` succeeds with the owner id, `Create`
succeeds), `handleLogin` responds 302 with `Location` equal to the submitted
redirect value if that value is non-empty and `isAllowedRedirect` accepts it,
and equal to `PublicURL + "/"` in every other case; the created cookie is
set. -/
theorem handleLogin_destination (s : Server) (r : Request) (did resolvedHandle : String)
    (cookie : Cookie)
    (hh : strings.TrimSpace (r.FormValue "handle") ≠ "") (hp : r.FormValue "password" ≠ "")
    (ha : s.Authenticate (strings.TrimSpace (r.FormValue "handle")) (r.FormValue "password")
      = .ok (did, resolvedHandle))
    (hd : did = s.cfg.OwnerDID)
    (hc : s.Create did resolvedHandle = .ok cookie) :
    (handleLogin s r).resp.Status = 302 ∧
    (handleLogin s r).resp.Header.Get "Location" =
      (if r.FormValue "redirect" ≠ "" ∧ isAllowedRedirect (r.FormValue "redirect") s.cfg = true
        then r.FormValue "redirect" else s.cfg.PublicURL ++ "/") ∧
    (handleLogin s r).resp.SetCookies = [cookie] := by
  subst hd
  rw [handleLogin_of_success s r resolvedHandle cookie hh hp ha hc]
  exact ⟨rfl, rfl, rfl⟩

theorem handleLogin_destination_witness :
    (handleLogin sampleServer requestLoginOwner).resp.Status = 302 ∧
    (handleLogin sampleServer requestLoginOwner).resp.Header.Get "Location" =
      (if requestLoginOwner.FormValue "redirect" ≠ "" ∧
          isAllowedRedirect (requestLoginOwner.FormValue "redirect") sampleServer.cfg = true
        then requestLoginOwner.FormValue "redirect"
        else sampleServer.cfg.PublicURL ++ "/") ∧
    (handleLogin sampleServer requestLoginOwner).resp.SetCookies = [sampleCookie] :=
  handleLogin_destination sampleServer requestLoginOwner "did:plc:owner" "owner.example.com"
    sampleCookie (by decide) (by decide) (by decide) (by decide) (by decide)

/-! ## Identity handlers: what their calls and cookies imply -/

/-- The calls of `handleSwitchIdentity`: none, `Validate` alone, or `Validate`
on the non-empty cookie, which succeeds, followed by `SwitchTo` on the group
of the validated session. -/
theorem handleSwitchIdentity_calls (s : Server) (r : Request) :
    (handleSwitchIdentity s r).calls = [] ∨
    (∃ value, (handleSwitchIdentity s r).calls = [.Validate value]) ∨
    ∃ value sess targetID, r.Cookie s.CookieName = some value ∧ value ≠ "" ∧
      s.Validate value = .ok sess ∧
      (handleSwitchIdentity s r).calls = [.Validate value, .SwitchTo sess.GroupID targetID] := by
  rcases noValidSession_or_session s r with hn | ⟨value, sess, hc, hv, hs⟩
  · rcases (handleSwitchIdentity_of_noValidSession s r hn).2 with h | h
    · exact Or.inl h
    · exact Or.inr (Or.inl h)
  · rw [handleSwitchIdentity_of_session s r value sess hc hv hs]
    cases strconv.ParseInt (r.FormValue "id") with
    | error e => exact Or.inr (Or.inl ⟨value, rfl⟩)
    | ok targetID =>
      simp only
      cases s.SwitchTo sess.GroupID targetID with
      | error e => exact Or.inr (Or.inr ⟨value, sess, targetID, hc, hv, hs, rfl⟩)
      | ok newCookie => exact Or.inr (Or.inr ⟨value, sess, targetID, hc, hv, hs, rfl⟩)

/-- The calls of `handleLogoutOne`: none, `Validate` alone, or `Validate` on
the non-empty cookie, which succeeds, followed by `DestroyOne` on the group of
the validated session. -/
theorem handleLogoutOne_calls (s : Server) (r : Request) :
    (handleLogoutOne s r).calls = [] ∨
    (∃ value, (handleLogoutOne s r).calls = [.Validate value]) ∨
    ∃ value sess targetID, r.Cookie s.CookieName = some value ∧ value ≠ "" ∧
      s.Validate value = .ok sess ∧
      (handleLogoutOne s r).calls =
        [.Validate value, .DestroyOne sess.GroupID targetID (targetID == sess.ID)] := by
  rcases noValidSession_or_session s r with hn | ⟨value, sess, hc, hv, hs⟩
  · rcases (handleLogoutOne_of_noValidSession s r hn).2 with h | h
    · exact Or.inl h
    · exact Or.inr (Or.inl h)
  · rw [handleLogoutOne_of_session s r value sess hc hv hs]
    cases strconv.ParseInt (r.FormValue "id") with
    | error e => exact Or.inr (Or.inl ⟨value, rfl⟩)
    | ok targetID =>
      simp only
      cases s.DestroyOne sess.GroupID targetID (targetID == sess.ID) with
      | error e => exact Or.inr (Or.inr ⟨value, sess, targetID, hc, hv, hs, rfl⟩)
      | ok newCookie =>
        cases newCookie with
        | none => exact Or.inr (Or.inr ⟨value, sess, targetID, hc, hv, hs, rfl⟩)
        | some cookie =>
          simp only
          split <;> exact Or.inr (Or.inr ⟨value, sess, targetID, hc, hv, hs, rfl⟩)

/-- A cookie set by `handleSwitchIdentity` is the cookie `SwitchTo` returned,
without error, for the group of the validated session. -/
theorem handleSwitchIdentity_cookie (s : Server) (r : Request) (c : Cookie)
    (hm : c ∈ (handleSwitchIdentity s r).resp.SetCookies) :
    ∃ value sess targetID, r.Cookie s.CookieName = some value ∧ value ≠ "" ∧
      s.Validate value = .ok sess ∧ strconv.ParseInt (r.FormValue "id") = .ok targetID ∧
      s.SwitchTo sess.GroupID targetID = .ok c := by
  rcases noValidSession_or_session s r with hn | ⟨value, sess, hc, hv, hs⟩
  · rw [(handleSwitchIdentity_of_noValidSession s r hn).1] at hm
    cases hm
  · rw [handleSwitchIdentity_of_session s r value sess hc hv hs] at hm
    cases hp : strconv.ParseInt (r.FormValue "id") with
    | error e =>
      rw [hp] at hm
      cases hm
    | ok targetID =>
      rw [hp] at hm
      simp only at hm
      cases hsw : s.SwitchTo sess.GroupID targetID with
      | error e =>
        rw [hsw] at hm
        cases hm
      | ok newCookie =>
        rw [hsw] at hm
        have hc2 : c = newCookie := List.mem_singleton.mp hm
        subst hc2
        exact ⟨value, sess, targetID, hc, hv, hs, rfl, hsw⟩

/-- A cookie set by `handleLogoutOne` is the cookie `DestroyOne` returned,
without error, for the group of the validated session. -/
theorem handleLogoutOne_cookie (s : Server) (r : Request) (c : Cookie)
    (hm : c ∈ (handleLogoutOne s r).resp.SetCookies) :
    ∃ value sess targetID, r.Cookie s.CookieName = some value ∧ value ≠ "" ∧
      s.Validate value = .ok sess ∧ strconv.ParseInt (r.FormValue "id") = .ok targetID ∧
      s.DestroyOne sess.GroupID targetID (targetID == sess.ID) = .ok (some c) := by
  rcases noValidSession_or_session s r with hn | ⟨value, sess, hc, hv, hs⟩
  · rw [(handleLogoutOne_of_noValidSession s r hn).1] at hm
    cases hm
  · rw [handleLogoutOne_of_session s r value sess hc hv hs] at hm
    cases hp : strconv.ParseInt (r.FormValue "id") with
    | error e =>
      rw [hp] at hm
      cases hm
    | ok targetID =>
      rw [hp] at hm
      simp only at hm
      cases hd : s.DestroyOne sess.GroupID targetID (targetID == sess.ID) with
      | error e =>
        rw [hd] at hm
        cases hm
      | ok newCookie =>
        rw [hd] at hm
        cases newCookie with
        | none => cases hm
        | some cookie =>
          simp only at hm
          have hc2 : c = cookie := by
            split at hm <;> exact List.mem_singleton.mp hm
          subst hc2
          exact ⟨value, sess, targetID, hc, hv, hs, rfl, hd⟩

/-! ## Identity handlers: theorems -/

/-- C12. Identity operations are scoped to the caller's own group. In
`handleSwitchIdentity` and `handleLogoutOne` a `SwitchTo` / `DestroyOne` call
comes right after a `Validate` call that succeeded on the caller's non-empty
cookie, and its group argument is the `GroupID` of the validated session; the
unconditional `Destroy` is never called; a cookie is set only when the
group-checked operation returned it without error; and when the cookie is
missing or invalid both handlers redirect to `PublicURL + "/login"` and make
no mutating session call. -/
theorem identity_handlers_group_scoped (s : Server) (r : Request) :
    (∀ g t, Call.SwitchTo g t ∈ (handleSwitchIdentity s r).calls →
      ∃ value sess, r.Cookie s.CookieName = some value ∧ value ≠ "" ∧
        s.Validate value = .ok sess ∧ g = sess.GroupID ∧
        (handleSwitchIdentity s r).calls = [.Validate value, .SwitchTo sess.GroupID t]) ∧
    (∀ g t a, Call.DestroyOne g t a ∈ (handleLogoutOne s r).calls →
      ∃ value sess, r.Cookie s.CookieName = some value ∧ value ≠ "" ∧
        s.Validate value = .ok sess ∧ g = sess.GroupID ∧
        (handleLogoutOne s r).calls = [.Validate value, .DestroyOne sess.GroupID t a]) ∧
    (∀ token, Call.Destroy token ∉ (handleSwitchIdentity s r).calls ∧
      Call.Destroy token ∉ (handleLogoutOne s r).calls) ∧
    (∀ c, c ∈ (handleSwitchIdentity s r).resp.SetCookies →
      ∃ value sess targetID, r.Cookie s.CookieName = some value ∧ value ≠ "" ∧
        s.Validate value = .ok sess ∧ strconv.ParseInt (r.FormValue "id") = .ok targetID ∧
        s.SwitchTo sess.GroupID targetID = .ok c) ∧
    (∀ c, c ∈ (handleLogoutOne s r).resp.SetCookies →
      ∃ value sess targetID, r.Cookie s.CookieName = some value ∧ value ≠ "" ∧
        s.Validate value = .ok sess ∧ strconv.ParseInt (r.FormValue "id") = .ok targetID ∧
        s.DestroyOne sess.GroupID targetID (targetID == sess.ID) = .ok (some c)) ∧
    (noValidSession s r →
      (handleSwitchIdentity s r).resp
        = Response.fresh.Redirect 302 (s.cfg.PublicURL ++ "/login") ∧
      (handleLogoutOne s r).resp = Response.fresh.Redirect 302 (s.cfg.PublicURL ++ "/login") ∧
      (∀ c ∈ (handleSwitchIdentity s r).calls, c.isMutating = false) ∧
      (∀ c ∈ (handleLogoutOne s r).calls, c.isMutating = false)) := by
  refine ⟨?_, ?_, ?_, handleSwitchIdentity_cookie s r, handleLogoutOne_cookie s r, ?_⟩
  · intro g t hm
    rcases handleSwitchIdentity_calls s r with h | ⟨v, h⟩ | ⟨value, sess, tid, hc, hv, hs, h⟩
    · rw [h] at hm
      cases hm
    · rw [h] at hm
      simp at hm
    · rw [h] at hm
      simp only [List.mem_cons, List.mem_singleton, List.not_mem_nil, or_false, reduceCtorEq,
        false_or, Call.SwitchTo.injEq] at hm
      obtain ⟨hg, ht⟩ := hm
      subst hg ht
      exact ⟨value, sess, hc, hv, hs, rfl, h⟩
  · intro g t a hm
    rcases handleLogoutOne_calls s r with h | ⟨v, h⟩ | ⟨value, sess, tid, hc, hv, hs, h⟩
    · rw [h] at hm
      cases hm
    · rw [h] at hm
      simp at hm
    · rw [h] at hm
      simp only [List.mem_cons, List.mem_singleton, List.not_mem_nil, or_false, reduceCtorEq,
        false_or, Call.DestroyOne.injEq] at hm
      obtain ⟨hg, ht, ha⟩ := hm
      subst hg ht ha
      exact ⟨value, sess, hc, hv, hs, rfl, h⟩
  · intro token
    constructor
    · intro hm
      rcases handleSwitchIdentity_calls s r with h | ⟨v, h⟩ | ⟨value, sess, tid, _, _, _, h⟩ <;>
        (rw [h] at hm; simp at hm)
    · intro hm
      rcases handleLogoutOne_calls s r with h | ⟨v, h⟩ | ⟨value, sess, tid, _, _, _, h⟩ <;>
        (rw [h] at hm; simp at hm)
  · intro hn
    have h1 := handleSwitchIdentity_of_noValidSession s r hn
    have h2 := handleLogoutOne_of_noValidSession s r hn
    refine ⟨h1.1, h2.1, ?_, ?_⟩
    · intro c hm
      rcases h1.2 with h | ⟨v, h⟩
      · rw [h] at hm
        cases hm
      · rw [h] at hm
        rw [List.mem_singleton.mp hm]
        rfl
    · intro c hm
      rcases h2.2 with h | ⟨v, h⟩
      · rw [h] at hm
        cases hm
      · rw [h] at hm
        rw [List.mem_singleton.mp hm]
        rfl

/-- A request of the owner to switch to the session of id 9. -/
def requestSwitch : Request :=
  sampleRequest [] [("noknok_session", "tok-1")] [("id", "9")]

theorem identity_handlers_group_scoped_witness :
    ∃ value sess, requestSwitch.Cookie sampleServer.CookieName = some value ∧ value ≠ "" ∧
      sampleServer.Validate value = .ok sess ∧ "grp-1" = sess.GroupID ∧
      (handleSwitchIdentity sampleServer requestSwitch).calls
        = [.Validate value, .SwitchTo sess.GroupID 9] :=
  (identity_handlers_group_scoped sampleServer requestSwitch).1 "grp-1" 9 (by decide)

/-- With a valid session and an `id` field that does not parse, both identity
handlers redirect to the portal root, having called `Validate` only. -/
theorem identity_handlers_of_bad_id (s : Server) (r : Request) (value e : String)
    (sess : Session) (hc : r.Cookie s.CookieName = some value) (hv : value ≠ "")
    (hs : s.Validate value = .ok sess)
    (hid : strconv.ParseInt (r.FormValue "id") = .error e) :
    handleSwitchIdentity s r =
      ⟨Response.fresh.Redirect 302 (s.cfg.PublicURL ++ "/"), [.Validate value]⟩ ∧
    handleLogoutOne s r =
      ⟨Response.fresh.Redirect 302 (s.cfg.PublicURL ++ "/"), [.Validate value]⟩ := by
  rw [handleSwitchIdentity_of_session s r value sess hc hv hs,
    handleLogoutOne_of_session s r value sess hc hv hs, hid]
  exact ⟨rfl, rfl⟩

/-- A login submission with an empty handle. -/
def requestLoginEmpty : Request :=
  sampleRequest [] [] [("handle", ""), ("password", "pw")]

/-- A request to switch identity with an `id` that is not a number and no
session cookie. -/
def requestSwitchBadId : Request :=
  sampleRequest [] [] [("id", "seven")]

/-- C13, as stated, fails. A login submission with an empty handle is answered
with the login page at status 200 and no `Location` header, not with a
redirect; and a switch-identity request whose `id` does not parse and that has
no session cookie is redirected to `PublicURL + "/login"`, not to the portal
root. -/
theorem malformed_input_not_always_redirected_to_root :
    requestLoginEmpty.FormValue "handle" = "" ∧
    (handleLogin sampleServer requestLoginEmpty).resp.Status = 200 ∧
    (handleLogin sampleServer requestLoginEmpty).resp.Header.Has "Location" = false ∧
    (∃ e, strconv.ParseInt (requestSwitchBadId.FormValue "id") = .error e) ∧
    (handleSwitchIdentity sampleServer requestSwitchBadId).resp.Status = 302 ∧
    (handleSwitchIdentity sampleServer requestSwitchBadId).resp.Header.Get "Location"
      = "https://portal.example.com/login" ∧
    (handleSwitchIdentity sampleServer requestSwitchBadId).resp.Header.Get "Location"
      ≠ sampleServer.cfg.PublicURL ++ "/" := by
  refine ⟨by decide, ?_, ?_, ⟨"invalid syntax", by decide⟩, by decide, by decide, by decide⟩
  · rw [handleLogin_of_empty sampleServer requestLoginEmpty (Or.inl (by decide))]
    rfl
  · rw [handleLogin_of_empty sampleServer requestLoginEmpty (Or.inl (by decide))]
    rfl

/-- C13, amended. Malformed input never reaches a mutating session call and
sets no cookie. With a valid session, an `id` field that does not parse makes
`handleSwitchIdentity` and `handleLogoutOne` redirect (302) to
`PublicURL + "/"` after the `Validate` call alone; without a valid session
they redirect to `PublicURL + "/login"` before the `id` is read. A login
submission whose handle (white space trimmed) or secret is empty is not
redirected: `handleLogin` answers with the login page at status 200 and the
message "Handle and app password are required.", and calls nothing. -/
theorem malformed_input_handling (s : Server) (r : Request) :
    (∀ value sess e, r.Cookie s.CookieName = some value → value ≠ "" →
      s.Validate value = .ok sess → strconv.ParseInt (r.FormValue "id") = .error e →
      ((handleSwitchIdentity s r).resp = Response.fresh.Redirect 302 (s.cfg.PublicURL ++ "/") ∧
        (handleSwitchIdentity s r).resp.Status = 302 ∧
        (handleSwitchIdentity s r).resp.Header.Get "Location" = s.cfg.PublicURL ++ "/" ∧
        (handleSwitchIdentity s r).resp.SetCookies = [] ∧
        (handleSwitchIdentity s r).calls = [.Validate value]) ∧
      ((handleLogoutOne s r).resp = Response.fresh.Redirect 302 (s.cfg.PublicURL ++ "/") ∧
        (handleLogoutOne s r).resp.Status = 302 ∧
        (handleLogoutOne s r).resp.Header.Get "Location" = s.cfg.PublicURL ++ "/" ∧
        (handleLogoutOne s r).resp.SetCookies = [] ∧
        (handleLogoutOne s r).calls = [.Validate value])) ∧
    (noValidSession s r →
      (handleSwitchIdentity s r).resp
        = Response.fresh.Redirect 302 (s.cfg.PublicURL ++ "/login") ∧
      (handleLogoutOne s r).resp = Response.fresh.Redirect 302 (s.cfg.PublicURL ++ "/login") ∧
      (∀ c ∈ (handleSwitchIdentity s r).calls, c.isMutating = false) ∧
      (∀ c ∈ (handleLogoutOne s r).calls, c.isMutating = false)) ∧
    (strings.TrimSpace (r.FormValue "handle") = "" ∨ r.FormValue "password" = "" →
      (handleLogin s r).resp =
        Response.fresh.HTML 200
          (loginHTML (r.FormValue "redirect") "Handle and app password are required.") ∧
      (handleLogin s r).resp.Status = 200 ∧
      (handleLogin s r).resp.Header.Has "Location" = false ∧
      (handleLogin s r).resp.SetCookies = [] ∧
      (handleLogin s r).calls = []) := by
  refine ⟨?_, ?_, ?_⟩
  · intro value sess e hc hv hs hid
    obtain ⟨h1, h2⟩ := identity_handlers_of_bad_id s r value e sess hc hv hs hid
    rw [h1, h2]
    exact ⟨⟨rfl, rfl, rfl, rfl, rfl⟩, ⟨rfl, rfl, rfl, rfl, rfl⟩⟩
  · intro hn
    have h1 := handleSwitchIdentity_of_noValidSession s r hn
    have h2 := handleLogoutOne_of_noValidSession s r hn
    refine ⟨h1.1, h2.1, ?_, ?_⟩
    · intro c hm
      rcases h1.2 with h | ⟨v, h⟩
      · rw [h] at hm
        cases hm
      · rw [h] at hm
        rw [List.mem_singleton.mp hm]
        rfl
    · intro c hm
      rcases h2.2 with h | ⟨v, h⟩
      · rw [h] at hm
        cases hm
      · rw [h] at hm
        rw [List.mem_singleton.mp hm]
        rfl
  · intro he
    rw [handleLogin_of_empty s r he]
    exact ⟨rfl, rfl, rfl, rfl, rfl⟩

/-- A request of the owner to log out one identity with an `id` that is not a
number. -/
def requestLogoutOneBadId : Request :=
  sampleRequest [] [("noknok_session", "tok-1")] [("id", "7a")]

theorem malformed_input_handling_witness :
    ((handleSwitchIdentity sampleServer requestLogoutOneBadId).resp
        = Response.fresh.Redirect 302 (sampleServer.cfg.PublicURL ++ "/") ∧
      (handleSwitchIdentity sampleServer requestLogoutOneBadId).resp.Status = 302 ∧
      (handleSwitchIdentity sampleServer requestLogoutOneBadId).resp.Header.Get "Location"
        = sampleServer.cfg.PublicURL ++ "/" ∧
      (handleSwitchIdentity sampleServer requestLogoutOneBadId).resp.SetCookies = [] ∧
      (handleSwitchIdentity sampleServer requestLogoutOneBadId).calls = [.Validate "tok-1"]) ∧
    ((handleLogoutOne sampleServer requestLogoutOneBadId).resp
        = Response.fresh.Redirect 302 (sampleServer.cfg.PublicURL ++ "/") ∧
      (handleLogoutOne sampleServer requestLogoutOneBadId).resp.Status = 302 ∧
      (handleLogoutOne sampleServer requestLogoutOneBadId).resp.Header.Get "Location"
        = sampleServer.cfg.PublicURL ++ "/" ∧
      (handleLogoutOne sampleServer requestLogoutOneBadId).resp.SetCookies = [] ∧
      (handleLogoutOne sampleServer requestLogoutOneBadId).calls = [.Validate "tok-1"]) :=
  (malformed_input_handling sampleServer requestLogoutOneBadId).1 "tok-1" sampleSession
    "invalid syntax" (by decide) (by decide) (by decide) (by decide)

/-- The portal root is not the login page. -/
theorem root_ne_login (p : String) : p ++ "/" ≠ p ++ "/login" := by
  intro h
  exact absurd (str_append_left_cancel h) (by decide)

/-- C14. Outcome of `handleLogoutOne`: with a valid session `sess` and a
parsed target id `t` on which `DestroyOne(sess.GroupID, t, wasActive)`
succeeds, `wasActive` is passed as `t == sess.ID`, the returned cookie is set
on the response exactly when it is non-nil, and the 302 redirect goes to
`PublicURL + "/login"` if and only if `t = sess.ID` and the returned cookie is
non-nil with `MaxAge = -1`; otherwise it goes to `PublicURL + "/"`. -/
theorem handleLogoutOne_outcome (s : Server) (r : Request) (value : String) (sess : Session)
    (t : Int) (newCookie : Option Cookie)
    (hc : r.Cookie s.CookieName = some value) (hv : value ≠ "")
    (hs : s.Validate value = .ok sess)
    (hid : strconv.ParseInt (r.FormValue "id") = .ok t)
    (hd : s.DestroyOne sess.GroupID t (t == sess.ID) = .ok newCookie) :
    (handleLogoutOne s r).calls
      = [.Validate value, .DestroyOne sess.GroupID t (t == sess.ID)] ∧
    (handleLogoutOne s r).resp.SetCookies = newCookie.toList ∧
    (handleLogoutOne s r).resp.Status = 302 ∧
    ((handleLogoutOne s r).resp.Header.Get "Location" = s.cfg.PublicURL ++ "/login" ↔
      (t = sess.ID ∧ ∃ c, newCookie = some c ∧ c.MaxAge = -1)) ∧
    (¬(t = sess.ID ∧ ∃ c, newCookie = some c ∧ c.MaxAge = -1) →
      (handleLogoutOne s r).resp.Header.Get "Location" = s.cfg.PublicURL ++ "/") := by
  rw [handleLogoutOne_of_session s r value sess hc hv hs, hid]
  simp only
  rw [hd]
  cases newCookie with
  | none =>
    refine ⟨rfl, rfl, rfl, ⟨fun h => ?_, fun h => ?_⟩, fun _ => rfl⟩
    · exact absurd (show s.cfg.PublicURL ++ "/" = s.cfg.PublicURL ++ "/login" from h)
        (root_ne_login _)
    · obtain ⟨_, c, hsome, _⟩ := h
      cases hsome
  | some cookie =>
    simp only
    by_cases hf : (t == sess.ID && cookie.MaxAge == -1) = true
    · rw [if_pos hf]
      have hf2 : t = sess.ID ∧ cookie.MaxAge = -1 := by
        simpa [Bool.and_eq_true, beq_iff_eq] using hf
      refine ⟨rfl, rfl, rfl, ⟨fun _ => ⟨hf2.1, cookie, rfl, hf2.2⟩, fun _ => rfl⟩, fun hn => ?_⟩
      exact absurd ⟨hf2.1, cookie, rfl, hf2.2⟩ hn
    · rw [if_neg hf]
      refine ⟨rfl, rfl, rfl, ⟨fun h => ?_, fun h => ?_⟩, fun _ => rfl⟩
      · exact absurd (show s.cfg.PublicURL ++ "/" = s.cfg.PublicURL ++ "/login" from h)
          (root_ne_login _)
      · obtain ⟨ht, c, hsome, hmax⟩ := h
        cases hsome
        exact absurd (by simp [ht, hmax]) hf

/-- The sample server with the session `tok-1` alone in its group: destroying
the active session leaves none, and the clearing cookie is returned. -/
def sampleServerSingle : Server :=
  { sampleServer with
    DestroyOne := fun groupID targetID wasActive =>
      if groupID = "grp-1" ∧ targetID = 7 then
        .ok (if wasActive then some clearingCookie else none)
      else .error "session not found in group" }

/-- A request of the owner to log out the active session, of id 7. -/
def requestLogoutActive : Request :=
  sampleRequest [] [("noknok_session", "tok-1")] [("id", "7")]

theorem handleLogoutOne_outcome_witness :
    (handleLogoutOne sampleServerSingle requestLogoutActive).calls
      = [.Validate "tok-1", .DestroyOne sampleSession.GroupID 7 (7 == sampleSession.ID)] ∧
    (handleLogoutOne sampleServerSingle requestLogoutActive).resp.SetCookies
      = (some clearingCookie).toList ∧
    (handleLogoutOne sampleServerSingle requestLogoutActive).resp.Status = 302 ∧
    ((handleLogoutOne sampleServerSingle requestLogoutActive).resp.Header.Get "Location"
        = sampleServerSingle.cfg.PublicURL ++ "/login" ↔
      ((7 : Int) = sampleSession.ID ∧ ∃ c, some clearingCookie = some c ∧ c.MaxAge = -1)) ∧
    (¬((7 : Int) = sampleSession.ID ∧ ∃ c, some clearingCookie = some c ∧ c.MaxAge = -1) →
      (handleLogoutOne sampleServerSingle requestLogoutActive).resp.Header.Get "Location"
        = sampleServerSingle.cfg.PublicURL ++ "/") :=
  handleLogoutOne_outcome sampleServerSingle requestLogoutActive "tok-1" sampleSession 7
    (some clearingCookie) (by decide) (by decide) (by decide) (by decide) (by decide)

end Noknok
